import Mathlib

/-!
Verification development for the ocp-diag-pci_lmt repository (PCIe Lane
Margining Test).

The embedding below is a shallow model of the Python sources:

* `src/pci_lmt/pcie_lane_margining.py` — the margining protocol engine
  (`PcieDeviceLaneMargining`, the `handle_lane_status` decorator and all
  register command/response operations);
* `src/pci_lmt/collector.py` — the lane collector and run orchestrator;
* `src/pci_lmt/lib/pci_lib.py` — the PCI capability-list traversals.

Modelling conventions:

* Config-space transport is an oracle: `Env.reads` is the sequence of
  values successive register reads return (`none` models the `-1` failure
  sentinel, `some v` a successful read of the 16/32-bit value `v`);
  `Env.writeOks` is the sequence of write outcomes (exhausted lists mean
  "read fails" / "write succeeds", matching the common case).
* Wall-clock timeouts are abstracted to a poll budget: every polling loop
  in the source rereads the status register until its condition holds or
  500 ms elapse; here each loop may re-poll at most `Env.budget` times before
  the deadline fires, mirroring the position of the `time.time()` check in
  the source loop bodies.
* Python dict results (`{"error": ..., ...}`) become the `Ret` structure
  whose fields are `Option`s; accessing an absent key (Python `KeyError`)
  is modelled by the `Except.error` channel of `EngineM`, which no caller
  catches — exactly like an uncaught Python exception.
* Python truthiness of error strings (`if self.device_error:`,
  `if ret["error"]:`) is modelled by `truthyO` / `truthyS`.
* Machine integers are `Nat` with explicit masking, exactly as the Python
  source masks its register words.
-/

namespace PciLmt

/-- Python truthiness of a string: nonempty strings are truthy. -/
def truthyS (x : String) : Bool := x != ""

/-- Python truthiness of an optional string (`None` and `""` are falsy). -/
def truthyO : Option String → Bool
  | none => false
  | some x => truthyS x

/-- One config-space I/O event, recorded so that theorems can state that an
operation touched (or did not touch) the hardware. -/
inductive IoEv where
  | read (address : Nat)
  | write (address : Nat) (data : Nat)
deriving DecidableEq, Repr

/-- The external config-space transport oracle and the abstract poll budget
standing for the 500 ms deadline of every polling loop. -/
structure Env where
  reads : List (Option Nat)
  writeOks : List Bool
  budget : Nat
deriving DecidableEq, Repr

/-- Model of the `LmtDeviceInfo` dataclass of `pcie_lane_margining.py`.
The capability bits are stored as the integers the source assigns
(`(payload & 0x10) >> 4` etc.), despite the `bool` annotations there. -/
structure LmtDeviceInfo where
  bdf : String := ""
  speed : String := ""
  width : Nat := 0
  lmt_capable : Bool := false
  ind_error_sampler : Nat := 0
  sample_reporting_method : Nat := 0
  ind_left_right_timing : Nat := 0
  ind_up_down_voltage : Nat := 0
  voltage_supported : Nat := 0
  num_voltage_steps : Nat := 0
  num_timing_steps : Nat := 0
  max_timing_offset : Nat := 0
  max_voltage_offset : Nat := 0
  sampling_rate_voltage : Nat := 0
  sampling_rate_timing : Nat := 0
  max_lanes : Nat := 0
  reserved : Nat := 0
deriving DecidableEq, Repr

/-- State of one `PcieDeviceLaneMargining` object, together with its
transport oracle and the I/O trace it has produced so far. -/
structure Engine where
  bdf : String
  device_error : Option String
  lane_errors : List String
  device_info : LmtDeviceInfo
  primed : Bool
  cap_lmt_offset : Nat
  env : Env
  trace : List IoEv
deriving DecidableEq, Repr

/-- Model of the arbitrary result dicts the protocol engine returns: every
key that any operation ever puts in such a dict is an optional field.
`sample_count_bits_sci` (a `"%.2E"`-formatted string in the source) is not
modelled and stays `none`. -/
structure Ret where
  error : Option String := none
  receiver_number_status : Option Nat := none
  margin_type_status : Option Nat := none
  usage_model_status : Option Nat := none
  margin_payload_status : Option Nat := none
  sample_count : Option Nat := none
  sample_count_bits : Option Nat := none
  sample_count_bits_sci : Option String := none
  value : Option Nat := none
  register_value : Option Nat := none
  step_margin_execution_status : Option Nat := none
  step_margin_execution_status_description : Option String := none
  error_count : Option Nat := none
deriving DecidableEq, Repr

/-- The engine computation monad: state threading over `Engine` with an
uncaught-exception channel (Python exceptions such as `KeyError` that no
code in the source catches). -/
def EngineM (α : Type) : Type := Engine → Except String (α × Engine)

instance : Monad EngineM where
  pure a := fun s => .ok (a, s)
  bind m f := fun s =>
    match m s with
    | .error e => .error e
    | .ok (a, s') => f a s'

/-- Read the engine state. -/
def getEngine : EngineM Engine := fun s => .ok (s, s)

/-- Update the engine state. -/
def modifyEngine (f : Engine → Engine) : EngineM Unit := fun s => .ok ((), f s)

/-- Python dict/list subscription: an absent key or index raises. -/
def require {α : Type} (msg : String) : Option α → EngineM α
  | some a => fun s => .ok (a, s)
  | none => fun _ => .error msg

/-- `PciDevice.read` (external transport): pops the next oracle read result
and records the I/O event. `none` is the `-1` failure sentinel. -/
def readReg (address : Nat) (_width : Nat) : EngineM (Option Nat) := fun s =>
  match s.env.reads with
  | [] => .ok (none, { s with trace := s.trace ++ [IoEv.read address] })
  | v :: rest =>
      .ok (v, { s with env := { s.env with reads := rest },
                       trace := s.trace ++ [IoEv.read address] })

/-- `PciDevice.write` (external transport): pops the next oracle write
outcome and records the I/O event. `false` is the `-1` failure sentinel. -/
def writeReg (address data : Nat) (_width : Nat) : EngineM Bool := fun s =>
  match s.env.writeOks with
  | [] => .ok (true, { s with trace := s.trace ++ [IoEv.write address data] })
  | b :: rest =>
      .ok (b, { s with env := { s.env with writeOks := rest },
                       trace := s.trace ++ [IoEv.write address data] })

/-- The `handle_lane_status` decorator of `pcie_lane_margining.py` lines
23-41: skip the body when the device or the lane is already faulty, and
cache the error of a failing body into `lane_errors[lane]`. -/
def handle_lane_status (lane : Nat) (method : EngineM Ret) : EngineM Ret := fun s =>
  if truthyO s.device_error then .ok ({ error := s.device_error }, s)
  else
    match s.lane_errors[lane]? with
    | none => .error "IndexError: lane_errors index out of range"
    | some le =>
      if truthyS le then .ok ({ error := some le }, s)
      else
        match method s with
        | .error e => .error e
        | .ok (ret, s') =>
          match ret.error with
          | some err =>
              if truthyS err then
                .ok (ret, { s' with lane_errors := s'.lane_errors.set lane err })
              else .ok (ret, s')
          | none => .ok (ret, s')

/-- `write_margining_lane_control_register` (lines 111-151): read the 16-bit
lane control register, keep the reserved bit, assemble the fields, write it
back. -/
def write_margining_lane_control_register
    (lane receiver_number margin_type usage_model margin_payload : Nat) :
    EngineM Ret :=
  handle_lane_status lane (do
    let s ← getEngine
    let address := 0x8 + lane * 0x4
    let data ← readReg (s.cap_lmt_offset + address) 16
    match data with
    | none => pure { error := some "ERROR: write_MarginingLaneControlRegister - read" }
    | some d0 =>
      let d1 := d0 &&& 0x0080
      let d2 := d1 ||| ((receiver_number &&& 0x7) <<< 0)
      let d3 := d2 ||| ((margin_type &&& 0x7) <<< 3)
      let d4 := d3 ||| ((usage_model &&& 0x1) <<< 6)
      let d5 := d4 ||| ((margin_payload &&& 0xFF) <<< 8)
      let ok ← writeReg (s.cap_lmt_offset + address) d5 16
      if ok then pure { error := none }
      else pure { error := some "ERROR: write_MarginingLaneControlRegister - write" })

/-- `decode_margining_lane_status_register` (lines 153-184): read the 16-bit
lane status register and split it into its fields. -/
def decode_margining_lane_status_register (lane : Nat) : EngineM Ret :=
  handle_lane_status lane (do
    let s ← getEngine
    let address := 0xA + lane * 0x4
    let data ← readReg (s.cap_lmt_offset + address) 16
    match data with
    | none => pure { error := some "ERROR: decode_MarginingLaneStatusRegister" }
    | some d =>
      pure { error := none
             receiver_number_status := some ((d >>> 0) &&& 0x7)
             margin_type_status := some ((d >>> 3) &&& 0x7)
             usage_model_status := some ((d >>> 6) &&& 0x1)
             margin_payload_status := some ((d >>> 8) &&& 0xFF) })

/-- Polling loop of `no_command` (lines 213-217):
`while ret["receiver_number_status"] != 0x0 and ret["margin_payload_status"] != 0x9C`,
rereading the status register each iteration and returning the timeout
error once the deadline (the fuel) is spent. -/
def noCommandPoll (lane : Nat) : Nat → Ret → EngineM Ret
  | fuel, ret => do
    let rns ← require "KeyError: receiver_number_status" ret.receiver_number_status
    let mps ← require "KeyError: margin_payload_status" ret.margin_payload_status
    if rns != 0x0 && mps != 0x9C then do
      let ret' ← decode_margining_lane_status_register lane
      match fuel with
      | 0 => pure { error := some "ERROR: NoCommand - Timedout" }
      | fuel' + 1 => noCommandPoll lane fuel' ret'
    else
      pure { error := none }

/-- `no_command` (lines 201-218). -/
def no_command (lane : Nat) : EngineM Ret :=
  handle_lane_status lane (do
    let _ ← write_margining_lane_control_register lane 0x0 0x7 0x0 0x9C
    let ret ← decode_margining_lane_status_register lane
    let s ← getEngine
    noCommandPoll lane s.env.budget ret)

/-- Shared shape of the `while ret["margin_type_status"] != target` polling
loops of the fetch/set operations, instantiated with each operation's own
timeout message. On success it returns the final status dict. -/
def marginTypePoll (lane target : Nat) (timeoutMsg : String) : Nat → Ret → EngineM Ret
  | fuel, ret => do
    let mts ← require "KeyError: margin_type_status" ret.margin_type_status
    if mts != target then do
      let ret' ← decode_margining_lane_status_register lane
      match fuel with
      | 0 => pure { error := some timeoutMsg }
      | fuel' + 1 => marginTypePoll lane target timeoutMsg fuel' ret'
    else
      pure ret

/-- Structural-fuel worker for the integer cube root: `cbrtAux fuel n` is
the cube root of `n` provided `n < 8 ^ fuel`, computed digit by digit in
base 8. -/
def cbrtAux : Nat → Nat → Nat
  | 0, _ => 0
  | fuel + 1, n =>
    if n < 8 then (if n = 0 then 0 else 1)
    else
      let r := 2 * cbrtAux fuel (n / 8)
      if (r + 1) ^ 3 ≤ n then r + 1 else r

/-- Integer cube root: the greatest `k` with `k ^ 3 ≤ n`. -/
def natCbrt (n : Nat) : Nat := cbrtAux (n + 1) n

/-- Model of the Python `int(pow(2, sample_count / 3))` of
`fetch_sample_count` (line 469) under exact real arithmetic: the floor of
the real number `2 ^ (sc / 3)`, which equals the integer cube root of
`2 ^ sc`. (CPython evaluates the expression in double precision, which can
shift the result by a few units in the last place near the saturation
boundary; none of the properties stated below are sensitive to that.) -/
def sampleCountBits (sc : Nat) : Nat := natCbrt (2 ^ sc)

/-- `fetch_num_voltage_steps` (lines 297-319). -/
def fetch_num_voltage_steps (lane receiver_number : Nat) : EngineM Ret :=
  handle_lane_status lane (do
    if ¬(0x1 ≤ receiver_number ∧ receiver_number < 0x7) then
      pure { error := some ("ERROR: FetchNumVoltageSteps - BAD receiver_number "
               ++ toString receiver_number) }
    else do
      let _ ← no_command lane
      let _ ← write_margining_lane_control_register lane receiver_number 0x1 0x0 0x89
      let ret ← decode_margining_lane_status_register lane
      let s ← getEngine
      let ret ← marginTypePoll lane 0x1 "ERROR: FetchNumVoltageSteps - Timedout" s.env.budget ret
      if truthyO ret.error then pure ret
      else do
        let mps ← require "KeyError: margin_payload_status" ret.margin_payload_status
        modifyEngine (fun s => { s with device_info :=
          { s.device_info with num_voltage_steps := (mps &&& 0x7F) >>> 0 } })
        pure { error := none })

/-- `fetch_num_timing_steps` (lines 321-345). -/
def fetch_num_timing_steps (lane receiver_number : Nat) : EngineM Ret :=
  handle_lane_status lane (do
    if ¬(0x1 ≤ receiver_number ∧ receiver_number < 0x7) then
      pure { error := some ("ERROR: FetchNumTimingSteps - BAD receiver_number "
               ++ toString receiver_number) }
    else do
      let _ ← no_command lane
      let _ ← write_margining_lane_control_register lane receiver_number 0x1 0x0 0x8A
      let ret ← decode_margining_lane_status_register lane
      let s ← getEngine
      let ret ← marginTypePoll lane 0x1 "ERROR: FetchNumTimingSteps - Timedout" s.env.budget ret
      if truthyO ret.error then pure ret
      else do
        let mps ← require "KeyError: margin_payload_status" ret.margin_payload_status
        modifyEngine (fun s => { s with device_info :=
          { s.device_info with num_timing_steps := (mps &&& 0x3F) >>> 0 } })
        pure { error := none })

/-- `fetch_max_timing_offset` (lines 347-369). -/
def fetch_max_timing_offset (lane receiver_number : Nat) : EngineM Ret :=
  handle_lane_status lane (do
    if ¬(0x1 ≤ receiver_number ∧ receiver_number < 0x7) then
      pure { error := some ("ERROR: FetchMaxTimingOffset - BAD receiver_number "
               ++ toString receiver_number) }
    else do
      let _ ← no_command lane
      let _ ← write_margining_lane_control_register lane receiver_number 0x1 0x0 0x8B
      let ret ← decode_margining_lane_status_register lane
      let s ← getEngine
      let ret ← marginTypePoll lane 0x1 "ERROR: FetchMaxTimingOffset - Timedout" s.env.budget ret
      if truthyO ret.error then pure ret
      else do
        let mps ← require "KeyError: margin_payload_status" ret.margin_payload_status
        modifyEngine (fun s => { s with device_info :=
          { s.device_info with max_timing_offset := (mps &&& 0x7F) >>> 0 } })
        pure { error := none })

/-- `fetch_max_voltage_offset` (lines 371-395). -/
def fetch_max_voltage_offset (lane receiver_number : Nat) : EngineM Ret :=
  handle_lane_status lane (do
    if ¬(0x1 ≤ receiver_number ∧ receiver_number < 0x7) then
      pure { error := some ("ERROR: FetchMaxVoltageOffset - BAD receiver_number "
               ++ toString receiver_number) }
    else do
      let _ ← no_command lane
      let _ ← write_margining_lane_control_register lane receiver_number 0x1 0x0 0x8C
      let ret ← decode_margining_lane_status_register lane
      let s ← getEngine
      let ret ← marginTypePoll lane 0x1 "ERROR: FetchMaxVoltageOffset - timedout" s.env.budget ret
      if truthyO ret.error then pure ret
      else do
        let mps ← require "KeyError: margin_payload_status" ret.margin_payload_status
        modifyEngine (fun s => { s with device_info :=
          { s.device_info with max_voltage_offset := (mps &&& 0x7F) >>> 0 } })
        pure { error := none })

/-- `fetch_sampling_rate_voltage` (lines 397-419). -/
def fetch_sampling_rate_voltage (lane receiver_number : Nat) : EngineM Ret :=
  handle_lane_status lane (do
    if ¬(0x1 ≤ receiver_number ∧ receiver_number < 0x7) then
      pure { error := some ("ERROR: FetchSamplingRateVoltage - BAD receiver_number "
               ++ toString receiver_number) }
    else do
      let _ ← no_command lane
      let _ ← write_margining_lane_control_register lane receiver_number 0x1 0x0 0x8D
      let ret ← decode_margining_lane_status_register lane
      let s ← getEngine
      let ret ← marginTypePoll lane 0x1 "ERROR: FetchSamplingRateVoltage - timedout" s.env.budget ret
      if truthyO ret.error then pure ret
      else do
        let mps ← require "KeyError: margin_payload_status" ret.margin_payload_status
        modifyEngine (fun s => { s with device_info :=
          { s.device_info with sampling_rate_voltage := (mps &&& 0x3F) >>> 0 } })
        pure { error := none })

/-- `fetch_sampling_rate_timing` (lines 421-443). -/
def fetch_sampling_rate_timing (lane receiver_number : Nat) : EngineM Ret :=
  handle_lane_status lane (do
    if ¬(0x1 ≤ receiver_number ∧ receiver_number < 0x7) then
      pure { error := some ("ERROR: FetchSamplingRateTiming - BAD receiver_number "
               ++ toString receiver_number) }
    else do
      let _ ← no_command lane
      let _ ← write_margining_lane_control_register lane receiver_number 0x1 0x0 0x8E
      let ret ← decode_margining_lane_status_register lane
      let s ← getEngine
      let ret ← marginTypePoll lane 0x1 "ERROR: FetchSamplingRateTiming - timedout" s.env.budget ret
      if truthyO ret.error then pure ret
      else do
        let mps ← require "KeyError: margin_payload_status" ret.margin_payload_status
        modifyEngine (fun s => { s with device_info :=
          { s.device_info with sampling_rate_timing := (mps &&& 0x3F) >>> 0 } })
        pure { error := none })

/-- `fetch_sample_count` (lines 445-476): on success, the decoded
`sample_count` is the payload masked to 7 bits and `sample_count_bits`
is `2 ^ (sample_count / 3)` (see `sampleCountBits`). -/
def fetch_sample_count (lane receiver_number : Nat) : EngineM Ret :=
  handle_lane_status lane (do
    if ¬(0x1 ≤ receiver_number ∧ receiver_number < 0x7) then
      pure { error := some ("ERROR: FetchSampleCount - BAD receiver_number "
               ++ toString receiver_number) }
    else do
      let _ ← no_command lane
      let _ ← write_margining_lane_control_register lane receiver_number 0x1 0x0 0x8F
      let ret ← decode_margining_lane_status_register lane
      let s ← getEngine
      let ret ← marginTypePoll lane 0x1 "ERROR: FetchSampleCount - timedout" s.env.budget ret
      if truthyO ret.error then pure ret
      else do
        let mps ← require "KeyError: margin_payload_status" ret.margin_payload_status
        let sample_count := (mps &&& 0x7F) >>> 0
        pure { error := none
               sample_count := some sample_count
               sample_count_bits := some (sampleCountBits sample_count) })

/-- `fetch_max_lanes` (lines 478-500). -/
def fetch_max_lanes (lane receiver_number : Nat) : EngineM Ret :=
  handle_lane_status lane (do
    if ¬(0x1 ≤ receiver_number ∧ receiver_number < 0x7) then
      pure { error := some ("ERROR: FetchMaxLanes - BAD receiver_number "
               ++ toString receiver_number) }
    else do
      let _ ← no_command lane
      let _ ← write_margining_lane_control_register lane receiver_number 0x1 0x0 0x90
      let ret ← decode_margining_lane_status_register lane
      let s ← getEngine
      let ret ← marginTypePoll lane 0x1 "ERROR: FetchMaxLanes - timedout" s.env.budget ret
      if truthyO ret.error then pure ret
      else do
        let mps ← require "KeyError: margin_payload_status" ret.margin_payload_status
        modifyEngine (fun s => { s with device_info :=
          { s.device_info with max_lanes := (mps &&& 0x1F) >>> 0 } })
        pure { error := none })

/-- `fetch_margin_control_capabilities` (lines 256-295): decode the five
capability bits, then cascade into the eight sub-fetches, whose return
values are discarded. -/
def fetch_margin_control_capabilities (lane receiver_number : Nat) : EngineM Ret :=
  handle_lane_status lane (do
    if ¬(0x1 ≤ receiver_number ∧ receiver_number < 0x7) then
      pure { error := some ("ERROR: FetchMarginControlCapabilities - Invalid receiver_number "
               ++ toString receiver_number) }
    else do
      let _ ← no_command lane
      let _ ← write_margining_lane_control_register lane receiver_number 0x1 0x0 0x88
      let ret ← decode_margining_lane_status_register lane
      let s ← getEngine
      let ret ← marginTypePoll lane 0x1 "ERROR: FetchMarginControlCapabilities - Timedout"
                  s.env.budget ret
      if truthyO ret.error then pure ret
      else do
        let mps ← require "KeyError: margin_payload_status" ret.margin_payload_status
        modifyEngine (fun s => { s with device_info :=
          { s.device_info with
            lmt_capable := true
            ind_error_sampler := (mps &&& 0x10) >>> 4
            sample_reporting_method := (mps &&& 0x08) >>> 3
            ind_left_right_timing := (mps &&& 0x04) >>> 2
            ind_up_down_voltage := (mps &&& 0x02) >>> 1
            voltage_supported := (mps &&& 0x01) >>> 0 } })
        let _ ← fetch_num_voltage_steps lane receiver_number
        let _ ← fetch_num_timing_steps lane receiver_number
        let _ ← fetch_max_timing_offset lane receiver_number
        let _ ← fetch_max_voltage_offset lane receiver_number
        let _ ← fetch_sampling_rate_voltage lane receiver_number
        let _ ← fetch_sampling_rate_timing lane receiver_number
        let _ ← fetch_sample_count lane receiver_number
        let _ ← fetch_max_lanes lane receiver_number
        pure { error := none })

/-- `set_error_count_limit` (lines 532-555). -/
def set_error_count_limit (lane receiver_number error_count_limit : Nat) : EngineM Ret :=
  handle_lane_status lane (do
    if ¬(0x1 ≤ receiver_number ∧ receiver_number < 0x7) then
      pure { error := some ("ERROR: SetErrorCountLimit - BAD receiver_number "
               ++ toString receiver_number) }
    else do
      let _ ← no_command lane
      let margin_payload := (0x3 <<< 6) ||| (error_count_limit &&& 0x3F)
      let _ ← write_margining_lane_control_register lane receiver_number 0x2 0x0 margin_payload
      let ret ← decode_margining_lane_status_register lane
      let s ← getEngine
      let ret ← marginTypePoll lane 0x2 "ERROR: SetErrorCountLimit - timedout" s.env.budget ret
      if truthyO ret.error then pure ret
      else pure { error := none })

/-- Polling loop of `goto_normal_settings` (lines 572-576):
`while ret["margin_type_status"] != 0x2 and ret["margin_payload_status"] != 0x0F`. -/
def gotoNormalPoll (lane : Nat) : Nat → Ret → EngineM Ret
  | fuel, ret => do
    let mts ← require "KeyError: margin_type_status" ret.margin_type_status
    let mps ← require "KeyError: margin_payload_status" ret.margin_payload_status
    if mts != 0x2 && mps != 0x0F then do
      let ret' ← decode_margining_lane_status_register lane
      match fuel with
      | 0 => pure { error := some "ERROR: GotoNormalSettings - timedout" }
      | fuel' + 1 => gotoNormalPoll lane fuel' ret'
    else
      pure ret

/-- `goto_normal_settings` (lines 557-579). -/
def goto_normal_settings (lane receiver_number : Nat) : EngineM Ret :=
  handle_lane_status lane (do
    if ¬(receiver_number < 0x7) then
      pure { error := some ("ERROR: GotoNormalSettings - BAD receiver_number "
               ++ toString receiver_number) }
    else do
      let _ ← no_command lane
      let _ ← write_margining_lane_control_register lane receiver_number 0x2 0x0 0x0F
      let ret ← decode_margining_lane_status_register lane
      let s ← getEngine
      let ret ← gotoNormalPoll lane s.env.budget ret
      if truthyO ret.error then pure ret
      else do
        let mps ← require "KeyError: margin_payload_status" ret.margin_payload_status
        pure { error := none, value := some ((mps &&& 0xFF) >>> 0) })

/-- Polling loop of `clear_error_log` (lines 596-600):
`while ret["margin_type_status"] != 0x2 and ret["margin_payload_status"] != 0x55`. -/
def clearErrorLogPoll (lane : Nat) : Nat → Ret → EngineM Ret
  | fuel, ret => do
    let mts ← require "KeyError: margin_type_status" ret.margin_type_status
    let mps ← require "KeyError: margin_payload_status" ret.margin_payload_status
    if mts != 0x2 && mps != 0x55 then do
      let ret' ← decode_margining_lane_status_register lane
      match fuel with
      | 0 => pure { error := some "ERROR: ClearErrorLog - timedout" }
      | fuel' + 1 => clearErrorLogPoll lane fuel' ret'
    else
      pure ret

/-- `clear_error_log` (lines 581-603). -/
def clear_error_log (lane receiver_number : Nat) : EngineM Ret :=
  handle_lane_status lane (do
    if ¬(receiver_number < 0x7) then
      pure { error := some ("ERROR: ClearErrorLog - BAD receiver_number "
               ++ toString receiver_number) }
    else do
      let _ ← no_command lane
      let _ ← write_margining_lane_control_register lane receiver_number 0x2 0x0 0x55
      let ret ← decode_margining_lane_status_register lane
      let s ← getEngine
      let ret ← clearErrorLogPoll lane s.env.budget ret
      if truthyO ret.error then pure ret
      else do
        let mps ← require "KeyError: margin_payload_status" ret.margin_payload_status
        pure { error := none, value := some ((mps &&& 0xFF) >>> 0) })

/-- The `MARGIN_RESPONSE` table of `constants.py` (the execution-status
descriptions; the status is a 2-bit field, so the catch-all branch is
unreachable). -/
def MARGIN_RESPONSE : Nat → String
  | 0 => "Too Many Errors"
  | 1 => "Setup for Margin In Progress"
  | 2 => "Margining Started and In Process"
  | 3 => "Command Not Supported"
  | _ => "KeyError: MARGIN_RESPONSE"

/-- Modelled from the spec: the `MarginType` enum that
`pcie_lane_margining.py` imports from `pci_lmt.config` is missing from the
provided sources; the spec (section 3, Data Model) describes it as the
tagged variant `VoltageNone | VoltageUp | VoltageDown | TimingNone |
TimingRight | TimingLeft`, with the member names the engine uses
(`MarginType.TIMING_RIGHT` and so on). -/
inductive MarginType where
  | VOLTAGE_NONE
  | VOLTAGE_UP
  | VOLTAGE_DOWN
  | TIMING_NONE
  | TIMING_RIGHT
  | TIMING_LEFT
deriving DecidableEq, Repr

/-- Rendering of a `MarginType` member for interpolation into error
messages. -/
def MarginType.name : MarginType → String
  | .VOLTAGE_NONE => "MarginType.VOLTAGE_NONE"
  | .VOLTAGE_UP => "MarginType.VOLTAGE_UP"
  | .VOLTAGE_DOWN => "MarginType.VOLTAGE_DOWN"
  | .TIMING_NONE => "MarginType.TIMING_NONE"
  | .TIMING_RIGHT => "MarginType.TIMING_RIGHT"
  | .TIMING_LEFT => "MarginType.TIMING_LEFT"

/-- Polling loop of `decode_step_margin_timing_offset_right_left_of_default`
(lines 685-709): a `while True` loop that rereads the status register; a
matching margin type with execution status 2 succeeds, 3 fails immediately
as unsupported, anything else polls until the deadline. -/
def stepMarginTimingIter (lane : Nat) : EngineM (Option Ret) := do
  let ret ← decode_margining_lane_status_register lane
  let mps ← require "KeyError: margin_payload_status" ret.margin_payload_status
  let step_margin_execution_status := (mps &&& 0xC0) >>> 6
  let error_count := (mps &&& 0x3F) >>> 0
  let mts ← require "KeyError: margin_type_status" ret.margin_type_status
  if mts == 0x3 && step_margin_execution_status == 0x2 then
    pure (some { error := none
                 margin_type_status := some mts
                 step_margin_execution_status := some step_margin_execution_status
                 step_margin_execution_status_description :=
                   some (MARGIN_RESPONSE step_margin_execution_status)
                 error_count := some error_count })
  else if mts == 0x3 && step_margin_execution_status == 0x3 then
    pure (some { error := some "ERROR: decode_StepMarginTimingOffsetRightLeftOfDefault - unsupported operation" })
  else
    pure none

/-- Fuel recursion for the timing decode loop: a `none` iteration result
means neither exit condition fired, so the loop polls again until the
deadline (the fuel) is spent. -/
def decodeStepMarginTimingPoll (lane : Nat) : Nat → EngineM Ret
  | 0 => do
    match ← stepMarginTimingIter lane with
    | some r => pure r
    | none => pure { error := some "ERROR: decode_StepMarginTimingOffsetRightLeftOfDefault - timedout" }
  | fuel + 1 => do
    match ← stepMarginTimingIter lane with
    | some r => pure r
    | none => decodeStepMarginTimingPoll lane fuel

/-- `decode_step_margin_timing_offset_right_left_of_default` (lines
660-709). -/
def decode_step_margin_timing_offset_right_left_of_default (lane : Nat) : EngineM Ret :=
  handle_lane_status lane (do
    let s ← getEngine
    decodeStepMarginTimingPoll lane s.env.budget)

/-- `step_margin_timing_offset_right_left_of_default` (lines 605-658):
directional legality against `ind_left_right_timing`, then issue the
margin-type-3 command and decode. The payload computation either yields a
payload or returns the function early with an error; the early returns are
modelled as the `Sum.inr` branch. -/
def step_margin_timing_offset_right_left_of_default
    (lane receiver_number : Nat) (margin_type : MarginType) (steps : Nat) :
    EngineM Ret :=
  handle_lane_status lane (do
    if ¬(0x1 ≤ receiver_number ∧ receiver_number < 0x7) then
      pure { error := some ("ERROR: StepMarginTimingOffsetRightLeftOfDefault - BAD receiver_number "
               ++ toString receiver_number) }
    else do
      let s ← getEngine
      let payload : Sum Nat String :=
        if s.device_info.ind_left_right_timing = 0 then
          if margin_type = MarginType.TIMING_NONE then Sum.inl steps
          else Sum.inr ("ERROR: StepMarginTimingOffsetRightLeftOfDefault - "
                 ++ "Rcvr doesn\x27t support independent left/right margining")
        else if margin_type = MarginType.TIMING_RIGHT then Sum.inl steps
        else if margin_type = MarginType.TIMING_LEFT then Sum.inl ((1 <<< 6) ||| steps)
        else Sum.inr ("ERROR: StepMarginTimingOffsetRightLeftOfDefault - BAD margin_type "
               ++ margin_type.name)
      match payload with
      | Sum.inr msg => pure { error := some msg }
      | Sum.inl margin_payload => do
        let _ ← no_command lane
        let _ ← write_margining_lane_control_register lane receiver_number 0x3 0x0 margin_payload
        decode_step_margin_timing_offset_right_left_of_default lane)

/-- Polling loop of `decode_step_margin_voltage_offset_up_down_of_default`
(lines 789-804), identical in shape to the timing loop but matching margin
type 4. -/
def stepMarginVoltageIter (lane : Nat) : EngineM (Option Ret) := do
  let ret ← decode_margining_lane_status_register lane
  let mps ← require "KeyError: margin_payload_status" ret.margin_payload_status
  let step_margin_execution_status := (mps &&& 0xC0) >>> 6
  let error_count := (mps &&& 0x3F) >>> 0
  let mts ← require "KeyError: margin_type_status" ret.margin_type_status
  if mts == 0x4 && step_margin_execution_status == 0x2 then
    pure (some { error := none
                 margin_type_status := some mts
                 step_margin_execution_status := some step_margin_execution_status
                 step_margin_execution_status_description :=
                   some (MARGIN_RESPONSE step_margin_execution_status)
                 error_count := some error_count })
  else if mts == 0x4 && step_margin_execution_status == 0x3 then
    pure (some { error := some "ERROR: decode_StepMarginVoltageOffsetUpDownOfDefault - unsupported operation" })
  else
    pure none

/-- Fuel recursion for the voltage decode loop, as for the timing one. -/
def decodeStepMarginVoltagePoll (lane : Nat) : Nat → EngineM Ret
  | 0 => do
    match ← stepMarginVoltageIter lane with
    | some r => pure r
    | none => pure { error := some "ERROR: decode_StepMarginVoltageOffsetUpDownOfDefault - timedout" }
  | fuel + 1 => do
    match ← stepMarginVoltageIter lane with
    | some r => pure r
    | none => decodeStepMarginVoltagePoll lane fuel

/-- `decode_step_margin_voltage_offset_up_down_of_default` (lines 764-812);
unlike the timing variant it performs one extra status read before the
`while True` loop and discards it (source line 787). The success dict of
the source spells the description key `step_margin_execution_statusDescription`;
the model reuses the single description field of `Ret`. -/
def decode_step_margin_voltage_offset_up_down_of_default (lane : Nat) : EngineM Ret :=
  handle_lane_status lane (do
    let _ ← decode_margining_lane_status_register lane
    let s ← getEngine
    decodeStepMarginVoltagePoll lane s.env.budget)

/-- `step_margin_voltage_offset_up_down_of_default` (lines 711-762). -/
def step_margin_voltage_offset_up_down_of_default
    (lane receiver_number : Nat) (margin_type : MarginType) (steps : Nat) :
    EngineM Ret :=
  handle_lane_status lane (do
    if ¬(0x1 ≤ receiver_number ∧ receiver_number < 0x7) then
      pure { error := some ("ERROR: StepMarginVoltageOffsetUpDownOfDefault - BAD receiver_number "
               ++ toString receiver_number) }
    else do
      let s ← getEngine
      let payload : Sum Nat String :=
        if s.device_info.ind_up_down_voltage = 0 then
          if margin_type = MarginType.VOLTAGE_NONE then Sum.inl steps
          else Sum.inr ("ERROR: StepMarginVoltageOffsetUpDownOfDefault - "
                 ++ "Rcvr doesn\x27t support independent up/down margining")
        else if margin_type = MarginType.VOLTAGE_UP then Sum.inl steps
        else if margin_type = MarginType.VOLTAGE_DOWN then Sum.inl ((1 <<< 6) ||| steps)
        else Sum.inr ("ERROR: StepMarginVoltageOffsetUpDownOfDefault - BAD margin_type "
               ++ margin_type.name)
      match payload with
      | Sum.inr msg => pure { error := some msg }
      | Sum.inl margin_payload => do
        let _ ← no_command lane
        let _ ← write_margining_lane_control_register lane receiver_number 0x4 0x0 margin_payload
        decode_step_margin_voltage_offset_up_down_of_default lane)

/-- Link status as reported by the external capability accessor
(`PciDevice.get_link_status`, specified in spec section 6). -/
structure LinkStatusInfo where
  err_msg : Option String
  speed_gts : String
  width : Nat
deriving DecidableEq, Repr

/-- Lane Margining extended-capability lookup result as reported by the
external capability accessor (`PciDevice.get_lmt_cap_info`). -/
structure LmtCapInfo where
  err_msg : Option String
  offset : Nat
deriving DecidableEq, Repr

/-- `PcieDeviceLaneMargining.__init__` (lines 73-109), with the two
capability-accessor calls supplied as oracle inputs: sets `primed = False`,
validates link and capability, stores a fatal `device_error` on any
failure (leaving `lane_errors` unallocated, modelled as `[]`), and
otherwise allocates one empty lane-error slot per lane. -/
def pcieDeviceLaneMarginingInit (bdf : String) (link_status : LinkStatusInfo)
    (lmt_cap_info : LmtCapInfo) (env : Env) : Engine :=
  let s0 : Engine :=
    { bdf := bdf
      device_error := none
      lane_errors := []
      device_info := { ({} : LmtDeviceInfo) with bdf := bdf }
      primed := false
      cap_lmt_offset := 0
      env := env
      trace := [] }
  if truthyO link_status.err_msg then
    { s0 with device_error := some ("BDF " ++ bdf ++ " Link down or device not present: "
        ++ link_status.err_msg.getD "") }
  else if ¬([1, 2, 4, 8, 16, 32, 64].contains link_status.width) then
    { s0 with device_error := some ("BDF " ++ bdf ++ " Unsupported Link width "
        ++ toString link_status.width) }
  else
    let s1 := { s0 with device_info := { s0.device_info with width := link_status.width } }
    if ¬(["16GT/s", "32GT/s", "64GT/s"].contains link_status.speed_gts) then
      { s1 with device_error := some ("BDF:" ++ bdf ++ " Unsupported link speed "
          ++ link_status.speed_gts) }
    else
      let s2 := { s1 with device_info := { s1.device_info with speed := link_status.speed_gts } }
      if truthyO lmt_cap_info.err_msg then
        { s2 with device_error := some ("BDF: " ++ bdf ++ " Lane Margining unsupported "
            ++ lmt_cap_info.err_msg.getD "") }
      else
        { s2 with cap_lmt_offset := lmt_cap_info.offset
                  lane_errors := List.replicate s2.device_info.width "" }

/-- The state after the marking loop of
`PcieLmCollector.infoLaneMarginOnDeviceList` (collector.py lines 128-130)
has assigned `lane_errors[lane] = err` for every `lane in range(width)`:
indices `0 .. width-1` are overwritten, any further entries are kept. -/
def markAllLanesState (s : Engine) (err : String) : Engine :=
  { s with lane_errors :=
      (List.range s.device_info.width).foldl (fun acc l => acc.set l err) s.lane_errors }

/-- The uncaught exception of the marking loop when `self.lane_errors` was
never allocated: `PcieDeviceLaneMargining.__init__` assigns
`device_info.width` before the link-speed and LMT-capability checks and
returns on their failure before the final `self.lane_errors = [""] * width`
line, so on such a device the first `device.lane_errors[lane] = ...`
assignment raises. -/
def laneErrorsAttributeError : String :=
  "AttributeError: \x27PcieDeviceLaneMargining\x27 object has no attribute \x27lane_errors\x27"

/-- The error path of `PcieLmCollector.infoLaneMarginOnDeviceList`
(collector.py lines 128-130): `for lane in range(width):
lane_errors[lane] = err`. Every assignment is in range exactly when
`width ≤ |lane_errors|` (in particular `width = 0` runs no iteration);
otherwise the loop hits a missing index — on the reachable states that is
lane 0 of a construction-failed device whose `lane_errors` was never
allocated — and the uncaught exception kills the run, modelled as
`.error`. -/
def markAllLanes (err : String) : EngineM Unit := fun s =>
  if s.device_info.width ≤ s.lane_errors.length then
    .ok ((), markAllLanesState s err)
  else
    .error laneErrorsAttributeError

/-- One device of `PcieLmCollector.infoLaneMarginOnDeviceList`
(collector.py lines 109-131): fetch the margin control capabilities on
lane 0; prime the device when the fetch reports no error, otherwise run
the marking loop over all lanes with the fetch error. -/
def infoLaneMarginOnDevice (receiver_number : Nat) : EngineM Unit := do
  let ret ← fetch_margin_control_capabilities 0 receiver_number
  match ret.error with
  | none => modifyEngine (fun s => { s with primed := true })
  | some err => markAllLanes err

/-- The `LmtLaneResult` dataclass of collector.py (lines 37-52), restricted
to the fields the per-lane measurement writes. Python floats are modelled
as rationals, so `ber` is the exact quotient the source computes. -/
structure LmtLaneResult where
  lane : Int := -1
  receiver_number : Int := -1
  margin_type : String := ""
  step : Int := -1
  sample_count : Int := -1
  sample_count_bits : Int := -1
  error_count : Int := -1
  ber : Rat := -1
  error : Bool := true
  error_msg : Option String := some ""
deriving DecidableEq, Repr

/-- The per-lane result computation of
`PcieLmCollector.collectLaneMarginOnDeviceList` (collector.py lines
188-206): combine the step-margin result and the `FetchSampleCount` result
into a `LmtLaneResult`. `none` models a Python `KeyError` on a malformed
sub-result dict. -/
def collectLaneMarginResult (stepper sampler : Ret) (lane_result : LmtLaneResult) :
    Option LmtLaneResult :=
  if truthyO stepper.error || truthyO sampler.error then
    some { lane_result with
           error := true
           error_msg := if truthyO stepper.error then stepper.error else sampler.error }
  else
    match stepper.error_count with
    | none => none
    | some ec =>
      if ec = 0 then
        match sampler.sample_count, sampler.sample_count_bits with
        | some sc, some scb =>
          some { lane_result with
                 error := false
                 sample_count := (sc : Int)
                 sample_count_bits := (scb : Int)
                 error_count := 0
                 ber := 0 }
        | _, _ => none
      else
        match sampler.sample_count, sampler.sample_count_bits with
        | some sc, some scb =>
          some { lane_result with
                 error := false
                 sample_count := (sc : Int)
                 sample_count_bits := (scb : Int)
                 error_count := (ec : Int)
                 ber := (ec : Rat) / (scb : Rat) }
        | _, _ => none

/-! Dispatch-level model of the orchestration in collector.py: the
`...OnDeviceList` helpers and `collectLmtOnBDFs` only decide which guarded
engine operation is invoked on which device and lane, in which order; the
operations themselves never change `primed` or the link width, and
`primed` is changed only by `infoLaneMarginOnDeviceList` (on fetch
success). The model therefore records the sequence of operation calls over
the per-device data those decisions read. -/

/-- The per-device data the dispatch layer reads: the `primed` flag and the
link width of a `PcieDeviceLaneMargining` object. -/
structure DevMeta where
  primed : Bool
  width : Nat
deriving DecidableEq, Repr

/-- One engine-operation call issued by the orchestrator, tagged with the
position of the target device in the device list. -/
inductive OpCall where
  | noCommand (dev lane : Nat)
  | fetchMarginControlCapabilities (dev lane receiver_number : Nat)
  | clearErrorLog (dev lane receiver_number : Nat)
  | gotoNormalSettings (dev lane receiver_number : Nat)
  | setErrorCountLimit (dev lane receiver_number limit : Nat)
  | stepMargin (dev lane receiver_number : Nat)
  | fetchSampleCount (dev lane receiver_number : Nat)
  | dwell
deriving DecidableEq, Repr

/-- `PcieLmCollector.noCommandOnDeviceList` (collector.py lines 103-107):
`NoCommand` on every lane of every **primed** device. -/
def noCommandOnDeviceListCalls (i : Nat) : List DevMeta → List OpCall
  | [] => []
  | d :: ds =>
    (if d.primed then (List.range d.width).map (OpCall.noCommand i) else [])
      ++ noCommandOnDeviceListCalls (i + 1) ds

/-- `PcieLmCollector.clearErrorLogOnDeviceList` (lines 97-101). -/
def clearErrorLogOnDeviceListCalls (i rn : Nat) : List DevMeta → List OpCall
  | [] => []
  | d :: ds =>
    (if d.primed then (List.range d.width).map (fun l => OpCall.clearErrorLog i l rn) else [])
      ++ clearErrorLogOnDeviceListCalls (i + 1) rn ds

/-- `PcieLmCollector.normalSettingsOnDeviceList` (lines 91-95). -/
def normalSettingsOnDeviceListCalls (i rn : Nat) : List DevMeta → List OpCall
  | [] => []
  | d :: ds =>
    (if d.primed then (List.range d.width).map (fun l => OpCall.gotoNormalSettings i l rn) else [])
      ++ normalSettingsOnDeviceListCalls (i + 1) rn ds

/-- `PcieLmCollector.setupLaneMarginOnDeviceList` (lines 133-141). -/
def setupLaneMarginOnDeviceListCalls (i rn limit : Nat) : List DevMeta → List OpCall
  | [] => []
  | d :: ds =>
    (if d.primed then (List.range d.width).map (fun l => OpCall.setErrorCountLimit i l rn limit) else [])
      ++ setupLaneMarginOnDeviceListCalls (i + 1) rn limit ds

/-- `PcieLmCollector.infoLaneMarginOnDeviceList` (lines 109-131): the
capability fetch is issued for lane 0 of **every** device, primed or not. -/
def infoLaneMarginOnDeviceListCalls (i rn : Nat) : List DevMeta → List OpCall
  | [] => []
  | _ :: ds =>
    OpCall.fetchMarginControlCapabilities i 0 rn :: infoLaneMarginOnDeviceListCalls (i + 1) rn ds

/-- `PcieLmCollector.collectLaneMarginOnDeviceList` (lines 143-208): the
step-margin command and `FetchSampleCount` on every lane of every device,
primed or not. -/
def collectLaneMarginOnDeviceListCalls (i rn : Nat) : List DevMeta → List OpCall
  | [] => []
  | d :: ds =>
    ((List.range d.width).map (fun l => [OpCall.stepMargin i l rn, OpCall.fetchSampleCount i l rn])).flatten
      ++ collectLaneMarginOnDeviceListCalls (i + 1) rn ds

/-- The effect of `infoLaneMarginOnDeviceList` on the `primed` flags:
device `i` becomes primed exactly when its capability fetch reported no
error (`outs.get? i = some true`); a failed fetch leaves the flag as it
was. -/
def applyPriming : List DevMeta → List Bool → List DevMeta
  | [], _ => []
  | d :: ds, [] => d :: applyPriming ds []
  | d :: ds, o :: os => (if o then { d with primed := true } else d) :: applyPriming ds os

/-- The call sequence of one `collectLmtOnBDFs` run (collector.py lines
298-312): the pre-priming `NoCommand` pass, the priming pass, then the
setup sweep (`NoCommand`, `ClearErrorLog`, `GotoNormalSettings`,
`SetErrorCountLimit`), the dwell wait, and the measurement pass. -/
def collectLmtOnBDFsCalls (devs : List DevMeta) (rn limit : Nat) (outs : List Bool) :
    List OpCall :=
  let devs' := applyPriming devs outs
  noCommandOnDeviceListCalls 0 devs
    ++ infoLaneMarginOnDeviceListCalls 0 rn devs
    ++ noCommandOnDeviceListCalls 0 devs'
    ++ clearErrorLogOnDeviceListCalls 0 rn devs'
    ++ normalSettingsOnDeviceListCalls 0 rn devs'
    ++ setupLaneMarginOnDeviceListCalls 0 rn limit devs'
    ++ [OpCall.dwell]
    ++ collectLaneMarginOnDeviceListCalls 0 rn devs'

/-! Model of the capability-list traversals of `lib/pci_lib.py`. The
config space is an oracle `read : Nat → Option Nat` from addresses to read
results (`none` is the `-1` failure sentinel). The unbounded `while` loops
are given fuel; exhausting the fuel (result `.running`) means the loop has
not terminated within that many iterations. -/

/-- Decoded capability entry (`CapabilityInfo` namedtuple of pci_lib.py). -/
structure CapInfoM where
  err_msg : Option String
  id : Option Nat
  version : Option Nat
  offset : Option Nat
  offset_next : Option Nat
deriving DecidableEq, Repr

/-- Python-dict insertion keyed by capability id: replace in place or
append. -/
def capDictInsert (d : List (Option Nat × CapInfoM)) (k : Option Nat) (v : CapInfoM) :
    List (Option Nat × CapInfoM) :=
  if d.any (fun kv => kv.1 = k) then
    d.map (fun kv => if kv.1 = k then (k, v) else kv)
  else
    d ++ [(k, v)]

/-- Outcome of running a capability-list loop with a given amount of
fuel. -/
inductive TraverseRes where
  | done (dict : List (Option Nat × CapInfoM))
  | running
  | crash (msg : String)
deriving DecidableEq, Repr

/-- `decode_capability` (pci_lib.py lines 111-135). -/
def decode_capability (read : Nat → Option Nat) (address : Nat) : CapInfoM :=
  match read address with
  | none =>
    { err_msg := some ("ERROR: BDF decode_capability address " ++ toString address)
      id := none, version := none, offset := none, offset_next := some 0 }
  | some data =>
    if data = 0xFFFFFFFF then
      { err_msg := some ("ERROR: BDF decode_capability address " ++ toString address)
        id := none, version := none, offset := none, offset_next := some 0 }
    else
      { err_msg := none
        id := some ((data >>> 0) &&& 0xFF)
        version := some ((data >>> 16) &&& 0x7)
        offset := some address
        offset_next := some ((data >>> 8) &&& 0xFC) }

/-- The `while offset_next != 0 and offset_next != -1` loop of
`create_dict_capabilities` (pci_lib.py lines 142-145). Within the loop
`offset_next` is always the masked nonnegative value a successful decode
produced (or 0 after a failed one), so only the `offset_next = 0` exit can
fire past the first check. -/
def createDictCapabilitiesLoop (read : Nat → Option Nat) :
    Nat → Nat → List (Option Nat × CapInfoM) → TraverseRes
  | 0, _, _ => .running
  | fuel + 1, offset_next, dict =>
    if offset_next = 0 then .done dict
    else
      let cap_info := decode_capability read offset_next
      createDictCapabilitiesLoop read fuel (cap_info.offset_next.getD 0)
        (capDictInsert dict cap_info.id cap_info)

/-- `create_dict_capabilities` (pci_lib.py lines 108-145): read the
capabilities pointer at 0x34 and walk the legacy list. A failed initial
read (`-1`) skips the loop. -/
def create_dict_capabilities (read : Nat → Option Nat) (fuel : Nat) : TraverseRes :=
  match read 0x34 with
  | none => .done []
  | some offset_next => createDictCapabilitiesLoop read fuel offset_next []

/-- `decode_extended_capability` (pci_lib.py lines 150-171); on a failed
read `offset_next` is `None`, which the caller then feeds back into
`read`, a Python `TypeError`. -/
def decode_extended_capability (read : Nat → Option Nat) (address : Nat) : CapInfoM :=
  match read address with
  | none =>
    { err_msg := some ("ERROR: BDF decode_extended_capability address " ++ toString address)
      id := none, version := none, offset := none, offset_next := none }
  | some data =>
    { err_msg := none
      id := some ((data >>> 0) &&& 0xFFFF)
      version := some ((data >>> 16) &&& 0xF)
      offset := some address
      offset_next := some ((data >>> 20) &&& 0xFFF) }

/-- The `while offset_next != 0 and offset_next != -1` loop of
`create_dict_extended_capabilities` (pci_lib.py lines 178-181), starting at
0x100. -/
def createDictExtendedCapabilitiesLoop (read : Nat → Option Nat) :
    Nat → Nat → List (Option Nat × CapInfoM) → TraverseRes
  | 0, _, _ => .running
  | fuel + 1, offset_next, dict =>
    if offset_next = 0 then .done dict
    else
      let cap_info := decode_extended_capability read offset_next
      match cap_info.offset_next with
      | none => .crash "TypeError: read address is None"
      | some nxt =>
        createDictExtendedCapabilitiesLoop read fuel nxt
          (capDictInsert dict cap_info.id cap_info)

/-- `create_dict_extended_capabilities` (pci_lib.py lines 147-181). -/
def create_dict_extended_capabilities (read : Nat → Option Nat) (fuel : Nat) : TraverseRes :=
  createDictExtendedCapabilitiesLoop read fuel 0x100 []

/-! Helper definitions for stating and proving the claims: projections of
engine runs, the status-register field extractors, and the concrete
engines the evaluation theorems run on. -/

/-- The result dict of a run (`none` when the run raised). -/
def runRet (m : EngineM Ret) (s : Engine) : Option Ret :=
  match m s with
  | .ok (r, _) => some r
  | .error _ => none

/-- The final engine state of a run (`none` when the run raised). -/
def runEngine {α : Type} (m : EngineM α) (s : Engine) : Option Engine :=
  match m s with
  | .ok (_, s') => some s'
  | .error _ => none

/-- `receiver_number_status` of a status word (bits 2:0). -/
def rnsOf (w : Nat) : Nat := (w >>> 0) &&& 0x7

/-- `margin_type_status` of a status word (bits 5:3). -/
def mtsOf (w : Nat) : Nat := (w >>> 3) &&& 0x7

/-- `margin_payload_status` of a status word (bits 15:8). -/
def mpsOf (w : Nat) : Nat := (w >>> 8) &&& 0xFF

/-- `step_margin_execution_status` of a status word (payload bits 7:6). -/
def execOf (w : Nat) : Nat := (mpsOf w &&& 0xC0) >>> 6

/-- `error_count` of a status word (payload bits 5:0). -/
def ecOf (w : Nat) : Nat := mpsOf w &&& 0x3F

/-- The dict `decode_margining_lane_status_register` returns for the status
word `w`. -/
def statusRet (w : Nat) : Ret :=
  { error := none
    receiver_number_status := some (rnsOf w)
    margin_type_status := some (mtsOf w)
    usage_model_status := some ((w >>> 6) &&& 0x1)
    margin_payload_status := some (mpsOf w) }

/-- The engine state after one successful status-register read on `lane`:
the head read is consumed and the read event recorded. -/
def popStatusRead (lane : Nat) (s : Engine) (rest : List (Option Nat)) : Engine :=
  { s with env := { s.env with reads := rest }
           trace := s.trace ++ [IoEv.read (s.cap_lmt_offset + (0xA + lane * 0x4))] }

/-- The success dict of the step-margin decode loops for final status word
`y` (execution status 2). -/
def stepSuccessRet (y : Nat) : Ret :=
  { error := none
    margin_type_status := some (mtsOf y)
    step_margin_execution_status := some (execOf y)
    step_margin_execution_status_description := some (MARGIN_RESPONSE (execOf y))
    error_count := some (ecOf y) }

/-- Outcome of one step-margin decode iteration on status word `w` when the
issued margin type is `mt`: exit with success, exit with the NAK error, or
keep polling (`none`). -/
def stepIterResult (mt w : Nat) (nakMsg : String) : Option Ret :=
  if mtsOf w == mt && execOf w == 0x2 then some (stepSuccessRet w)
  else if mtsOf w == mt && execOf w == 0x3 then some { error := some nakMsg }
  else none

/-- A healthy single-lane engine (no device error, lane 0 clean) whose
status register answers the NoCommand poll with the word 0x0000:
`receiver_number_status = 0` but `margin_payload_status = 0 ≠ 0x9C`. -/
def engC1 : Engine :=
  { bdf := "0000:00:00.0"
    device_error := none
    lane_errors := [""]
    device_info := { ({} : LmtDeviceInfo) with width := 1 }
    primed := false
    cap_lmt_offset := 0x100
    env := { reads := [some 0, some 0x0000], writeOks := [], budget := 3 }
    trace := [] }

/-- Like `engC1` but with reads for `goto_normal_settings` /
`clear_error_log`: the inner NoCommand completes (status 0x9C00), then the
status register answers 0x0010, that is `margin_type_status = 2` with
payload 0 — neither 0x0F nor 0x55. -/
def engC1Goto : Engine :=
  { engC1 with env := { reads := [some 0, some 0x9C00, some 0, some 0x0010]
                        writeOks := [], budget := 3 } }

/-- A healthy single-lane engine on which the lane-0 capability fetch
itself succeeds with capability payload 0x0F (every capability bit set
except `ind_error_sampler`, bit 4), but the first cascaded sub-fetch
(`fetch_num_voltage_steps`) times out: its status register keeps answering
0 and the poll budget is 0. The final read `some 0xAB` is left in the
oracle to show that the remaining seven sub-fetches perform no I/O. -/
def engCX : Engine :=
  { bdf := "0000:01:00.0"
    device_error := none
    lane_errors := [""]
    device_info := { ({} : LmtDeviceInfo) with width := 1 }
    primed := false
    cap_lmt_offset := 0x100
    env := { reads := [some 0, some 0x9C00, some 0, some 0x0F08,
                       some 0, some 0x9C00, some 0, some 0, some 0,
                       some 0xAB]
             writeOks := [], budget := 0 }
    trace := [] }

/-- A healthy single-lane engine for `fetch_sample_count`: the inner
NoCommand completes (status 0x9C00) and the fetch poll then reads the
status word `w`. -/
def fetchSampleEngine (w : Nat) (rest : List (Option Nat)) : Engine :=
  { bdf := "0000:02:00.0"
    device_error := none
    lane_errors := [""]
    device_info := { ({} : LmtDeviceInfo) with width := 1 }
    primed := false
    cap_lmt_offset := 0x100
    env := { reads := [some 0, some 0x9C00, some 0, some w] ++ rest
             writeOks := [], budget := 0 }
    trace := [] }

/-- A config space whose legacy capability list is cyclic: the pointer at
0x34 points to 0x40, and the entry at 0x40 (word 0x4001) points back to
0x40. -/
def cyclicCapRead : Nat → Option Nat := fun a =>
  if a = 0x34 then some 0x40
  else if a = 0x40 then some 0x4001
  else some 0

/-- A config space whose extended capability list is cyclic: every read
returns the word 0x10000027, whose next-offset field (bits 31:20) is 0x100,
the list head itself. -/
def cyclicExtCapRead : Nat → Option Nat := fun _ => some 0x10000027

/-- A device whose construction failed (fatal `device_error`, zero width):
every guarded operation short-circuits on it without I/O. -/
def engDev : Engine :=
  { bdf := "0000:03:00.0"
    device_error := some "BDF 0000:03:00.0 Link down"
    lane_errors := []
    device_info := ({} : LmtDeviceInfo)
    primed := false
    cap_lmt_offset := 0
    env := { reads := [], writeOks := [], budget := 0 }
    trace := [] }

def timingNoLRMsg : String :=
  "ERROR: StepMarginTimingOffsetRightLeftOfDefault - Rcvr doesn\x27t support independent left/right margining"

def timingBadTypeNoneMsg : String :=
  "ERROR: StepMarginTimingOffsetRightLeftOfDefault - BAD margin_type MarginType.TIMING_NONE"

def voltageNoUDMsg : String :=
  "ERROR: StepMarginVoltageOffsetUpDownOfDefault - Rcvr doesn\x27t support independent up/down margining"

def voltageBadTypeNoneMsg : String :=
  "ERROR: StepMarginVoltageOffsetUpDownOfDefault - BAD margin_type MarginType.VOLTAGE_NONE"

def timingNakMsg : String :=
  "ERROR: decode_StepMarginTimingOffsetRightLeftOfDefault - unsupported operation"

def timingTimeoutMsg : String :=
  "ERROR: decode_StepMarginTimingOffsetRightLeftOfDefault - timedout"

def voltageNakMsg : String :=
  "ERROR: decode_StepMarginVoltageOffsetUpDownOfDefault - unsupported operation"

def voltageTimeoutMsg : String :=
  "ERROR: decode_StepMarginVoltageOffsetUpDownOfDefault - timedout"

/-- A clean engine whose status register answers with the NAK word for a
timing step: margin_type_status = 3, step_margin_execution_status = 3. -/
def engC4nak : Engine :=
  { bdf := "0000:00:00.0"
    device_error := none
    lane_errors := [""]
    device_info := { ({} : LmtDeviceInfo) with width := 1 }
    primed := false
    cap_lmt_offset := 0x100
    env := { reads := [some 0xC018], writeOks := [], budget := 9 }
    trace := [] }

/-- A clean engine whose status register keeps answering 0x0000, which
matches neither step-margin exit condition, so the decode loops poll until
the deadline. -/
def engC4poll : Engine :=
  { bdf := "0000:00:00.0"
    device_error := none
    lane_errors := [""]
    device_info := { ({} : LmtDeviceInfo) with width := 1 }
    primed := false
    cap_lmt_offset := 0x100
    env := { reads := [some 0, some 0], writeOks := [], budget := 1 }
    trace := [] }

/-- A healthy link-status oracle answer: a 2-lane link at 16GT/s. -/
def linkOkC9 : LinkStatusInfo := { err_msg := none, speed_gts := "16GT/s", width := 2 }

/-- A found Lane Margining extended capability at offset 0xE8. -/
def capOkC9 : LmtCapInfo := { err_msg := none, offset := 0xE8 }

/-- A device whose construction fails at the link-speed check: the link is
up with a valid width of 2, so `__init__` stores the width, but the speed
"8GT/s" is unsupported, so it returns with a `device_error` before
allocating `lane_errors`. -/
def engC2crash : Engine :=
  pcieDeviceLaneMarginingInit "0000:04:00.0"
    { err_msg := none, speed_gts := "8GT/s", width := 2 }
    { err_msg := none, offset := 0xE8 }
    { reads := [], writeOks := [], budget := 0 }

/-! Theorems. First the generic unfolding lemmas for the monad. -/

@[simp] theorem engineM_bind_apply {α β : Type} (m : EngineM α) (f : α → EngineM β)
    (s : Engine) :
    (m >>= f) s = match m s with
      | .error e => .error e
      | .ok (a, s') => f a s' := rfl

@[simp] theorem engineM_pure_apply {α : Type} (a : α) (s : Engine) :
    (pure a : EngineM α) s = .ok (a, s) := rfl

@[simp] theorem getEngine_apply (s : Engine) : getEngine s = .ok (s, s) := rfl

@[simp] theorem modifyEngine_apply (f : Engine → Engine) (s : Engine) :
    modifyEngine f s = .ok ((), f s) := rfl

@[simp] theorem require_some {α : Type} (msg : String) (a : α) (s : Engine) :
    require msg (some a) s = .ok (a, s) := rfl

@[simp] theorem require_none {α : Type} (msg : String) (s : Engine) :
    require msg (none : Option α) s = .error msg := rfl

@[simp] theorem truthyO_none : truthyO none = false := rfl

@[simp] theorem truthyO_some (x : String) : truthyO (some x) = truthyS x := rfl

@[simp] theorem truthyS_empty : truthyS "" = false := rfl

/-! The guard lemmas: behaviour of the `handle_lane_status` decorator in
its four cases. -/

theorem handle_lane_status_device_error (lane : Nat) (m : EngineM Ret) (s : Engine)
    (h : truthyO s.device_error = true) :
    handle_lane_status lane m s = .ok ({ error := s.device_error }, s) := by
  simp [handle_lane_status, h]

theorem handle_lane_status_cached (lane : Nat) (m : EngineM Ret) (s : Engine) (e : String)
    (h1 : truthyO s.device_error = false) (h2 : s.lane_errors[lane]? = some e)
    (h3 : truthyS e = true) :
    handle_lane_status lane m s = .ok ({ error := some e }, s) := by
  simp [handle_lane_status, h1, h2, h3]

theorem handle_lane_status_ok (lane : Nat) (m : EngineM Ret) (s : Engine)
    (ret : Ret) (s' : Engine)
    (h1 : truthyO s.device_error = false) (h2 : s.lane_errors[lane]? = some "")
    (hm : m s = .ok (ret, s')) (hr : ret.error = none) :
    handle_lane_status lane m s = .ok (ret, s') := by
  simp [handle_lane_status, h1, h2, hm, hr]

theorem handle_lane_status_caches (lane : Nat) (m : EngineM Ret) (s : Engine)
    (ret : Ret) (s' : Engine) (e : String)
    (h1 : truthyO s.device_error = false) (h2 : s.lane_errors[lane]? = some "")
    (hm : m s = .ok (ret, s')) (hr : ret.error = some e) (h3 : truthyS e = true) :
    handle_lane_status lane m s =
      .ok (ret, { s' with lane_errors := s'.lane_errors.set lane e }) := by
  simp [handle_lane_status, h1, h2, hm, hr, h3]

/-! Evaluation lemmas for the individual register operations on a clean
lane (no device error, empty cached lane error), used to drive the chains
below symbolically. -/

theorem decode_status_ok (lane : Nat) (s : Engine) (w : Nat) (rest : List (Option Nat))
    (h1 : s.device_error = none) (h2 : s.lane_errors[lane]? = some "")
    (hr : s.env.reads = some w :: rest) :
    decode_margining_lane_status_register lane s =
      .ok (statusRet w, popStatusRead lane s rest) := by
  simp only [decode_margining_lane_status_register, handle_lane_status, h1, h2,
    truthyO_none, truthyS_empty, Bool.false_eq_true, if_false,
    engineM_bind_apply, engineM_pure_apply, getEngine_apply, readReg, hr,
    statusRet, popStatusRead, rnsOf, mtsOf, mpsOf]

theorem write_mlcr_ok (lane rn mt um mp : Nat) (s : Engine) (c : Nat)
    (rest : List (Option Nat))
    (h1 : s.device_error = none) (h2 : s.lane_errors[lane]? = some "")
    (hr : s.env.reads = some c :: rest) (hw : s.env.writeOks = []) :
    write_margining_lane_control_register lane rn mt um mp s =
      .ok ({ error := none },
        { s with
          env := { s.env with reads := rest }
          trace := (s.trace ++ [IoEv.read (s.cap_lmt_offset + (0x8 + lane * 0x4))])
            ++ [IoEv.write (s.cap_lmt_offset + (0x8 + lane * 0x4))
                  ((((c &&& 0x0080) ||| ((rn &&& 0x7) <<< 0)) ||| ((mt &&& 0x7) <<< 3)
                      ||| ((um &&& 0x1) <<< 6)) ||| ((mp &&& 0xFF) <<< 8))] }) := by
  simp only [write_margining_lane_control_register, handle_lane_status, h1, h2,
    truthyO_none, truthyS_empty, Bool.false_eq_true, if_false,
    engineM_bind_apply, engineM_pure_apply, getEngine_apply, readReg, writeReg, hr, hw,
    if_true]

theorem noCommandPoll_exit (lane fuel : Nat) (w : Nat) (s : Engine)
    (hb : (rnsOf w != 0x0 && mpsOf w != 0x9C) = false) :
    noCommandPoll lane fuel (statusRet w) s = .ok ({ error := none }, s) := by
  rw [noCommandPoll]
  simp only [statusRet, require_some, engineM_bind_apply, engineM_pure_apply, hb,
    Bool.false_eq_true, if_false]

theorem no_command_ok (lane : Nat) (s : Engine) (c w : Nat) (rest : List (Option Nat))
    (h1 : s.device_error = none) (h2 : s.lane_errors[lane]? = some "")
    (hr : s.env.reads = some c :: some w :: rest) (hw : s.env.writeOks = [])
    (hb : (rnsOf w != 0x0 && mpsOf w != 0x9C) = false) :
    no_command lane s =
      .ok ({ error := none },
        { s with
          env := { s.env with reads := rest }
          trace := ((s.trace ++ [IoEv.read (s.cap_lmt_offset + (0x8 + lane * 0x4))])
              ++ [IoEv.write (s.cap_lmt_offset + (0x8 + lane * 0x4))
                    ((((c &&& 0x0080) ||| ((0x0 &&& 0x7) <<< 0)) ||| ((0x7 &&& 0x7) <<< 3)
                        ||| ((0x0 &&& 0x1) <<< 6)) ||| ((0x9C &&& 0xFF) <<< 8))])
            ++ [IoEv.read (s.cap_lmt_offset + (0xA + lane * 0x4))] }) := by
  have hwrite := write_mlcr_ok lane 0x0 0x7 0x0 0x9C s c (some w :: rest) h1 h2 hr hw
  rw [no_command]
  simp only [handle_lane_status, h1, h2, truthyO_none, truthyS_empty, Bool.false_eq_true,
    if_false, engineM_bind_apply, engineM_pure_apply, getEngine_apply, hwrite]
  rw [decode_status_ok lane _ w rest (by rfl) (by simpa using h2) (by rfl)]
  simp only [popStatusRead]
  rw [noCommandPoll_exit lane _ w _ hb]

theorem marginTypePoll_exit (lane target fuel : Nat) (msg : String) (w : Nat) (s : Engine)
    (hb : (mtsOf w != target) = false) :
    marginTypePoll lane target msg fuel (statusRet w) s = .ok (statusRet w, s) := by
  rw [marginTypePoll]
  simp only [statusRet, require_some, engineM_bind_apply, engineM_pure_apply, hb,
    Bool.false_eq_true, if_false]

theorem marginTypePoll_timeout0 (lane target fuel : Nat) (msg : String) (w1 w2 : Nat)
    (s : Engine) (rest : List (Option Nat))
    (h1 : s.device_error = none) (h2 : s.lane_errors[lane]? = some "")
    (hr : s.env.reads = some w2 :: rest)
    (hb : (mtsOf w1 != target) = true) (hf : fuel = 0) :
    marginTypePoll lane target msg fuel (statusRet w1) s =
      .ok ({ error := some msg }, popStatusRead lane s rest) := by
  subst hf
  rw [marginTypePoll]
  simp only [statusRet, require_some, engineM_bind_apply, engineM_pure_apply, hb, if_true]
  rw [decode_status_ok lane s w2 rest h1 h2 hr]

/-- C1. The spec claims NoCommand succeeds only when
`receiver_number_status = 0` **and** `margin_payload_status = 0x9C` hold on
a polled read (and analogously GotoNormalSettings requires
`margin_type_status = 2` **and** payload 0x0F, ClearErrorLog payload 0x55).
The loops in the source are written `while A != x and B != y`, so they exit
as soon as **either** condition holds: on `engC1` the single polled status
word 0x0000 satisfies only the receiver-number half, yet `no_command`
returns success; on `engC1Goto` the word 0x0010 satisfies only the
margin-type half, yet `goto_normal_settings` and `clear_error_log` return
success with the echoed value 0. -/
theorem noCommand_gotoNormal_clearErrorLog_succeed_without_conjunction :
    ((runRet (no_command 0) engC1).map (fun r => r.error) = some none
      ∧ rnsOf 0x0000 = 0 ∧ mpsOf 0x0000 ≠ 0x9C)
    ∧ ((runRet (goto_normal_settings 0 1) engC1Goto).map (fun r => (r.error, r.value))
          = some (none, some 0)
        ∧ mtsOf 0x0010 = 0x2 ∧ mpsOf 0x0010 ≠ 0x0F)
    ∧ ((runRet (clear_error_log 0 1) engC1Goto).map (fun r => (r.error, r.value))
          = some (none, some 0)
        ∧ mpsOf 0x0010 ≠ 0x55) := by
  decide

set_option maxHeartbeats 1000000 in
/-- Helper: full evaluation of `fetch_margin_control_capabilities` on
`engCX`. The fetch reports success (`error = None`) although its first
cascaded sub-fetch timed out and cached its error into `lane_errors[0]`,
short-circuiting the remaining sub-fetches (the trailing oracle read stays
unconsumed), and the sub-fetch-filled capability fields keep their
defaults, while the decoded `ind_error_sampler` (payload bit 4 of 0x0F)
is 0. -/
theorem fetchCX_eval :
    ∃ s', fetch_margin_control_capabilities 0 0x1 engCX = .ok ({ error := none }, s')
      ∧ s'.primed = false
      ∧ s'.lane_errors = ["ERROR: FetchNumVoltageSteps - Timedout"]
      ∧ s'.device_info.lmt_capable = true
      ∧ s'.device_info.ind_error_sampler = 0
      ∧ s'.device_info.num_voltage_steps = 0
      ∧ s'.device_info.num_timing_steps = 0
      ∧ s'.env.reads = [some 0xAB] := by
  unfold fetch_margin_control_capabilities
  simp only [handle_lane_status, show truthyO engCX.device_error = false from rfl,
    show engCX.lane_errors[0]? = some "" from rfl, truthyS_empty, Bool.false_eq_true,
    if_false]
  rw [if_neg (by norm_num)]
  simp only [engineM_bind_apply]
  rw [no_command_ok 0 engCX 0x0 0x9C00 _ rfl rfl rfl rfl (by decide)]
  simp only [engineM_bind_apply]
  rw [write_mlcr_ok 0 0x1 0x1 0x0 0x88 _ 0x0 _ (by rfl) (by rfl) (by rfl) (by rfl)]
  simp only [engineM_bind_apply]
  rw [decode_status_ok 0 _ 0x0F08 _ (by rfl) (by rfl) (by rfl)]
  simp only [engineM_bind_apply, getEngine_apply, popStatusRead]
  rw [marginTypePoll_exit 0 0x1 _ _ 0x0F08 _ (by decide)]
  simp only [engineM_bind_apply, engineM_pure_apply, statusRet, truthyO_none,
    Bool.false_eq_true, if_false, require_some, modifyEngine_apply]
  unfold fetch_num_voltage_steps
  simp only [handle_lane_status, show engCX.device_error = none from rfl, truthyO_none,
    Bool.false_eq_true, if_false, show engCX.lane_errors[0]? = some "" from rfl,
    truthyS_empty]
  rw [if_neg (by norm_num)]
  simp only [engineM_bind_apply]
  rw [no_command_ok 0 _ 0x0 0x9C00 _ (by rfl) (by rfl) (by rfl) (by rfl) (by decide)]
  simp only [engineM_bind_apply]
  rw [write_mlcr_ok 0 0x1 0x1 0x0 0x89 _ 0x0 _ (by rfl) (by rfl) (by rfl) (by rfl)]
  simp only [engineM_bind_apply]
  rw [decode_status_ok 0 _ 0x0 _ (by rfl) (by rfl) (by rfl)]
  simp only [engineM_bind_apply, getEngine_apply]
  rw [marginTypePoll_timeout0 0 0x1 _ _ 0x0 0x0 _ _ (by rfl) (by rfl) (by rfl)
      (by decide) (by rfl)]
  simp only [popStatusRead, engineM_bind_apply, engineM_pure_apply, truthyO_some,
    show truthyS "ERROR: FetchNumVoltageSteps - Timedout" = true from rfl, if_true]
  unfold fetch_num_timing_steps
  rw [handle_lane_status_cached 0 _ _ _ (by rfl) (by rfl) (by rfl)]
  simp only [engineM_bind_apply]
  unfold fetch_max_timing_offset
  rw [handle_lane_status_cached 0 _ _ _ (by rfl) (by rfl) (by rfl)]
  simp only [engineM_bind_apply]
  unfold fetch_max_voltage_offset
  rw [handle_lane_status_cached 0 _ _ _ (by rfl) (by rfl) (by rfl)]
  simp only [engineM_bind_apply]
  unfold fetch_sampling_rate_voltage
  rw [handle_lane_status_cached 0 _ _ _ (by rfl) (by rfl) (by rfl)]
  simp only [engineM_bind_apply]
  unfold fetch_sampling_rate_timing
  rw [handle_lane_status_cached 0 _ _ _ (by rfl) (by rfl) (by rfl)]
  simp only [engineM_bind_apply]
  unfold fetch_sample_count
  rw [handle_lane_status_cached 0 _ _ _ (by rfl) (by rfl) (by rfl)]
  simp only [engineM_bind_apply]
  unfold fetch_max_lanes
  rw [handle_lane_status_cached 0 _ _ _ (by rfl) (by rfl) (by rfl)]
  simp only [engineM_pure_apply]
  exact ⟨_, rfl, rfl, rfl, rfl, rfl, rfl, rfl, rfl⟩

/-- C2 counterexample. On `engCX` the lane-0
`fetch_margin_control_capabilities` succeeds (`error = None`) and the
fetched `ind_error_sampler` bit is 0, yet the collector marks the device
primed: the code primes on fetch success unconditionally — there is no
independent-sampler check and no forcing opt-in anywhere. -/
theorem infoLaneMargin_primes_despite_clear_ind_error_sampler :
    ∃ s', infoLaneMarginOnDevice 0x1 engCX = .ok ((), s')
      ∧ s'.primed = true
      ∧ s'.device_info.lmt_capable = true
      ∧ s'.device_info.ind_error_sampler = 0 := by
  obtain ⟨s', hf, _, _, hcap, hies, _, _, _⟩ := fetchCX_eval
  refine ⟨{ s' with primed := true }, ?_, rfl, hcap, hies⟩
  unfold infoLaneMarginOnDevice
  simp only [engineM_bind_apply, hf, modifyEngine_apply]

/-- C10. On `engCX` the capability fetch decodes its payload, then its
first cascaded sub-fetch (`fetch_num_voltage_steps`) times out: the
sub-fetch error is cached into `lane_errors[0]`, the remaining seven
sub-fetches short-circuit on that cached error without touching the oracle
(the trailing read `some 0xAB` stays unconsumed), the capability fields
those sub-fetches would have filled keep their default 0, and yet
`fetch_margin_control_capabilities` returns `error = None` — so the
collector primes the device while lane 0 already carries the cached
fault. -/
theorem fetch_capabilities_masks_subfetch_failure :
    ∃ s', fetch_margin_control_capabilities 0 0x1 engCX = .ok ({ error := none }, s')
      ∧ s'.lane_errors = ["ERROR: FetchNumVoltageSteps - Timedout"]
      ∧ s'.device_info.num_voltage_steps = 0
      ∧ s'.device_info.num_timing_steps = 0
      ∧ s'.env.reads = [some 0xAB]
      ∧ infoLaneMarginOnDevice 0x1 engCX = .ok ((), { s' with primed := true })
      ∧ ({ s' with primed := true } : Engine).primed = true := by
  obtain ⟨s', hf, _, hl, _, _, hnv, hnt, hr⟩ := fetchCX_eval
  refine ⟨s', hf, hl, hnv, hnt, hr, ?_, rfl⟩
  unfold infoLaneMarginOnDevice
  simp only [engineM_bind_apply, hf, modifyEngine_apply]



/-- C2 amended. Priming depends only on the fetch result and never on the
fetched `ind_error_sampler` flag (there is no forcing opt-in in the code):
when lane-0 `fetch_margin_control_capabilities` returns `error = None` the
device becomes primed; when it returns an error the device is left
unprimed and the marking loop runs — on a device whose `lane_errors` list
covers its width (every successfully constructed device, and width-0
failures) every lane is marked faulty with that error, while on a
construction-failed device with nonzero width (unsupported link speed or
missing LMT capability, where `__init__` set the width but returned before
allocating `lane_errors`) the loop raises AttributeError and the run
dies. -/
theorem infoLaneMargin_primes_iff_fetch_succeeds :
    ∀ (s : Engine) (rn : Nat) (ret : Ret) (s' : Engine),
      fetch_margin_control_capabilities 0 rn s = .ok (ret, s') →
      (ret.error = none →
        infoLaneMarginOnDevice rn s = .ok ((), { s' with primed := true })) ∧
      (∀ e, ret.error = some e →
        (s'.device_info.width ≤ s'.lane_errors.length →
          infoLaneMarginOnDevice rn s = .ok ((), markAllLanesState s' e)) ∧
        (s'.lane_errors.length < s'.device_info.width →
          infoLaneMarginOnDevice rn s = .error laneErrorsAttributeError)) := by
  intro s rn ret s' hf
  constructor
  · intro he
    unfold infoLaneMarginOnDevice
    simp only [engineM_bind_apply, hf, he, modifyEngine_apply]
  · intro e he
    constructor
    · intro hw
      unfold infoLaneMarginOnDevice
      simp only [engineM_bind_apply, hf, he, markAllLanes]
      rw [if_pos hw]
    · intro hw
      unfold infoLaneMarginOnDevice
      simp only [engineM_bind_apply, hf, he, markAllLanes]
      rw [if_neg (by omega)]

/-- Witness for the C2 amended theorem: on the dead device `engDev`
(width 0, `lane_errors = []`) the fetch short-circuits with the cached
device error and the marking loop runs zero iterations without priming,
while on `engC2crash` — constructed through `pcieDeviceLaneMarginingInit`
with an unsupported link speed, so width 2 but `lane_errors` never
allocated — the marking loop raises AttributeError. -/
theorem infoLaneMargin_primes_iff_fetch_succeeds_witness :
    infoLaneMarginOnDevice 0x1 engDev =
      .ok ((), markAllLanesState engDev "BDF 0000:03:00.0 Link down")
    ∧ infoLaneMarginOnDevice 0x1 engC2crash = .error laneErrorsAttributeError := by
  constructor
  · exact ((infoLaneMargin_primes_iff_fetch_succeeds engDev 0x1
        { error := some "BDF 0000:03:00.0 Link down" } engDev (by rfl)).2
      "BDF 0000:03:00.0 Link down" rfl).1 (by decide)
  · exact ((infoLaneMargin_primes_iff_fetch_succeeds engC2crash 0x1
        { error := some "BDF:0000:04:00.0 Unsupported link speed 8GT/s" } engC2crash
        (by rfl)).2
      "BDF:0000:04:00.0 Unsupported link speed 8GT/s" rfl).2 (by decide)

/-- C3. The guard contract of the `handle_lane_status` decorator: (1) a
fatal `device_error` is returned immediately, the state untouched (so no
register read or write happens); (2) a cached lane fault is returned
immediately, the state untouched; (3) when the body runs and fails, the
returned error string is cached into `lane_errors[lane]` before the tagged
result is returned (no exception); (4) on the cached state every
subsequent guarded operation (any body `m2`) returns the identical cached
error without running its body, again leaving the state untouched. -/
theorem handle_lane_status_guard_contract :
    (∀ (lane : Nat) (m : EngineM Ret) (s : Engine) (e : String),
       s.device_error = some e → truthyS e = true →
       handle_lane_status lane m s = .ok ({ error := some e }, s)) ∧
    (∀ (lane : Nat) (m : EngineM Ret) (s : Engine) (e : String),
       truthyO s.device_error = false → s.lane_errors[lane]? = some e → truthyS e = true →
       handle_lane_status lane m s = .ok ({ error := some e }, s)) ∧
    (∀ (lane : Nat) (m : EngineM Ret) (s : Engine) (ret : Ret) (s' : Engine) (e : String),
       truthyO s.device_error = false → s.lane_errors[lane]? = some "" →
       m s = .ok (ret, s') → ret.error = some e → truthyS e = true →
       handle_lane_status lane m s =
         .ok (ret, { s' with lane_errors := s'.lane_errors.set lane e })) ∧
    (∀ (lane : Nat) (m2 : EngineM Ret) (s' : Engine) (e : String),
       truthyO s'.device_error = false → lane < s'.lane_errors.length → truthyS e = true →
       handle_lane_status lane m2 { s' with lane_errors := s'.lane_errors.set lane e } =
         .ok ({ error := some e }, { s' with lane_errors := s'.lane_errors.set lane e })) := by
  refine ⟨?_, ?_, ?_, ?_⟩
  · intro lane m s e hd ht
    rw [handle_lane_status_device_error lane m s (by rw [hd]; exact ht), hd]
  · intro lane m s e h1 h2 h3
    exact handle_lane_status_cached lane m s e h1 h2 h3
  · intro lane m s ret s' e h1 h2 hm hr h3
    exact handle_lane_status_caches lane m s ret s' e h1 h2 hm hr h3
  · intro lane m2 s' e h1 hlen h3
    exact handle_lane_status_cached lane m2 _ e h1
      (by simpa using List.getElem?_set_eq_of_lt e hlen) h3

/-- Witness for the C3 guard contract at concrete inputs: the dead device
`engDev` (case 1), a healthy lane that already cached a fault, a body that
fails and gets cached, and the idempotent short-circuit on the cached
state. -/
theorem handle_lane_status_guard_contract_witness :
    (handle_lane_status 0 (pure { error := none }) engDev =
      .ok ({ error := some "BDF 0000:03:00.0 Link down" }, engDev))
    ∧ (handle_lane_status 0 (pure { error := none })
          { engC1 with lane_errors := ["boom"] } =
        .ok ({ error := some "boom" }, { engC1 with lane_errors := ["boom"] }))
    ∧ (handle_lane_status 0 (pure { error := some "boom" }) engC1 =
        .ok ({ error := some "boom" }, { engC1 with lane_errors := ["boom"] }))
    ∧ (handle_lane_status 0 (pure { error := none })
          { engC1 with lane_errors := engC1.lane_errors.set 0 "boom" } =
        .ok ({ error := some "boom" },
             { engC1 with lane_errors := engC1.lane_errors.set 0 "boom" })) := by
  obtain ⟨c1, c2, c3, c4⟩ := handle_lane_status_guard_contract
  refine ⟨c1 0 _ engDev _ rfl (by decide), ?_, ?_, c4 0 _ engC1 "boom" (by decide) (by decide) (by decide)⟩
  · have h := c2 0 (pure { error := none }) { engC1 with lane_errors := ["boom"] } "boom"
      (by decide) (by decide) (by decide)
    exact h
  · have h := c3 0 (pure { error := some "boom" }) engC1 { error := some "boom" } engC1 "boom"
      (by decide) (by decide) rfl rfl (by decide)
    simpa using h

/-- C5. The BER policy of the per-lane measurement: when either sub-result
carries a truthy error the lane result is an error row whose message is
the first non-null error with the stepper taking precedence; when both
succeed and the error count is 0 the row reports `ber = 0`; otherwise
`ber` is exactly `error_count / sample_count_bits` (floats modelled as
rationals, so the quotient is exact). -/
theorem collectLaneMarginResult_ber_policy :
    (∀ (st sa : Ret) (base : LmtLaneResult),
       truthyO st.error = true →
       collectLaneMarginResult st sa base =
         some { base with error := true, error_msg := st.error }) ∧
    (∀ (st sa : Ret) (base : LmtLaneResult),
       truthyO st.error = false → truthyO sa.error = true →
       collectLaneMarginResult st sa base =
         some { base with error := true, error_msg := sa.error }) ∧
    (∀ (st sa : Ret) (base : LmtLaneResult) (ec sc scb : Nat),
       truthyO st.error = false → truthyO sa.error = false →
       st.error_count = some ec → sa.sample_count = some sc →
       sa.sample_count_bits = some scb →
       (ec = 0 →
         collectLaneMarginResult st sa base =
           some { base with
             error := false, sample_count := (sc : Int),
             sample_count_bits := (scb : Int), error_count := 0, ber := 0 }) ∧
       (ec ≠ 0 →
         collectLaneMarginResult st sa base =
           some { base with
             error := false, sample_count := (sc : Int),
             sample_count_bits := (scb : Int), error_count := (ec : Int),
             ber := (ec : Rat) / (scb : Rat) })) := by
  refine ⟨?_, ?_, ?_⟩
  · intro st sa base h
    simp [collectLaneMarginResult, h]
  · intro st sa base h1 h2
    simp [collectLaneMarginResult, h1, h2]
  · intro st sa base ec sc scb h1 h2 hec hsc hscb
    constructor
    · intro h0
      subst h0
      simp [collectLaneMarginResult, h1, h2, hec, hsc, hscb]
    · intro hne
      simp [collectLaneMarginResult, h1, h2, hec, hsc, hscb, hne]

/-- Witness for the C5 BER policy at concrete sub-results: a failing
stepper, a failing sampler, a clean zero-error row and a row with
`error_count = 3`, `sample_count_bits = 8`, so `ber = 3/8`. -/
theorem collectLaneMarginResult_ber_policy_witness :
    (collectLaneMarginResult { error := some "E1" } { error := none } {} =
      some { ({} : LmtLaneResult) with error := true, error_msg := some "E1" })
    ∧ (collectLaneMarginResult { error := none, error_count := some 1 }
          { error := some "E2" } {} =
        some { ({} : LmtLaneResult) with error := true, error_msg := some "E2" })
    ∧ (collectLaneMarginResult { error := none, error_count := some 0 }
          { error := none, sample_count := some 6, sample_count_bits := some 4 } {} =
        some { ({} : LmtLaneResult) with
          error := false, sample_count := 6,
          sample_count_bits := 4, error_count := 0, ber := 0 })
    ∧ (collectLaneMarginResult { error := none, error_count := some 3 }
          { error := none, sample_count := some 9, sample_count_bits := some 8 } {} =
        some { ({} : LmtLaneResult) with
          error := false, sample_count := 9,
          sample_count_bits := 8, error_count := 3, ber := (3 : Rat) / 8 }) := by
  obtain ⟨c1, c2, c3⟩ := collectLaneMarginResult_ber_policy
  refine ⟨c1 _ _ _ (by decide), c2 _ _ _ (by decide) (by decide), ?_, ?_⟩
  · exact (c3 _ _ _ 0 6 4 (by decide) (by decide) rfl rfl rfl).1 rfl
  · exact (c3 _ _ _ 3 9 8 (by decide) (by decide) rfl rfl rfl).2 (by decide)

/-- The fuel worker computes the integer cube root whenever the fuel
covers the base-8 digits of the input. -/
theorem cbrtAux_spec : ∀ (fuel n : Nat), n < 8 ^ fuel →
    (cbrtAux fuel n) ^ 3 ≤ n ∧ n < (cbrtAux fuel n + 1) ^ 3 := by
  intro fuel
  induction fuel with
  | zero =>
    intro n h
    simp only [pow_zero, Nat.lt_one_iff] at h
    subst h
    simp [cbrtAux]
  | succ f ih =>
    intro n h
    rw [cbrtAux]
    by_cases h8 : n < 8
    · by_cases h0 : n = 0
      · simp [h8, h0]
      · simp only [h8, if_true, h0, if_false]
        constructor
        · simpa using Nat.one_le_iff_ne_zero.mpr h0
        · norm_num
          omega
    · simp only [h8, if_false]
      have hd : n / 8 < 8 ^ f := by
        rw [Nat.div_lt_iff_lt_mul (by norm_num)]
        calc n < 8 ^ (f + 1) := h
        _ = 8 ^ f * 8 := by rw [pow_succ]
      obtain ⟨hl, hu⟩ := ih (n / 8) hd
      by_cases hc : (2 * cbrtAux f (n / 8) + 1) ^ 3 ≤ n
      · rw [if_pos hc]
        refine ⟨hc, ?_⟩
        have h1 : n < (cbrtAux f (n / 8) + 1) ^ 3 * 8 := by
          rw [← Nat.div_lt_iff_lt_mul (by norm_num)]
          exact hu
        have h2 : (2 * cbrtAux f (n / 8) + 1 + 1) ^ 3 = (cbrtAux f (n / 8) + 1) ^ 3 * 8 := by
          ring
        omega
      · rw [if_neg hc]
        push_neg at hc
        refine ⟨?_, hc⟩
        have h1 : cbrtAux f (n / 8) ^ 3 * 8 ≤ n / 8 * 8 :=
          Nat.mul_le_mul_right 8 hl
        have h2 : n / 8 * 8 ≤ n := Nat.div_mul_le_self n 8
        have h3 : (2 * cbrtAux f (n / 8)) ^ 3 = cbrtAux f (n / 8) ^ 3 * 8 := by ring
        omega

/-- `natCbrt n` is the greatest integer whose cube is at most `n`. -/
theorem natCbrt_spec (n : Nat) : (natCbrt n) ^ 3 ≤ n ∧ n < (natCbrt n + 1) ^ 3 := by
  refine cbrtAux_spec (n + 1) n ?_
  calc n < 2 ^ n := Nat.lt_two_pow n
  _ ≤ 2 ^ (n + 1) := Nat.pow_le_pow_right (by norm_num) (by omega)
  _ ≤ 8 ^ (n + 1) := Nat.pow_le_pow_left (by norm_num) _

/-- Lower bounds transfer through `natCbrt`. -/
theorem le_natCbrt (a n : Nat) (h : a ^ 3 ≤ n) : a ≤ natCbrt n := by
  by_contra hlt
  push_neg at hlt
  have h2 := (natCbrt_spec n).2
  have h3 : (natCbrt n + 1) ^ 3 ≤ a ^ 3 := Nat.pow_le_pow_left (by omega) 3
  omega

/-- Upper bounds transfer through `natCbrt`. -/
theorem natCbrt_le (n u : Nat) (h : n < (u + 1) ^ 3) : natCbrt n ≤ u := by
  by_contra hlt
  push_neg at hlt
  have h1 := (natCbrt_spec n).1
  have h3 : (u + 1) ^ 3 ≤ (natCbrt n) ^ 3 := Nat.pow_le_pow_left (by omega) 3
  omega


set_option maxHeartbeats 1000000 in
/-- C6. A successful `fetch_sample_count` decodes `sample_count` as the
status payload masked to its low 7 bits and `sample_count_bits` as
`2 ^ (sample_count / 3)` (the floor of the exact real power, i.e. the
integer cube root of `2 ^ sample_count`); in particular `sample_count = 0`
gives 1 bit, and at the saturation boundary `sample_count = 127` the count
is between 5.53e12 and 5.55e12, i.e. approximately 5.54e12 bits. -/
theorem fetch_sample_count_decode_and_bits :
    (∀ (w : Nat) (rest : List (Option Nat)), mtsOf w = 0x1 →
      ∃ s', fetch_sample_count 0 0x1 (fetchSampleEngine w rest) =
          .ok ({ error := none
                 sample_count := some (mpsOf w &&& 0x7F)
                 sample_count_bits := some (sampleCountBits (mpsOf w &&& 0x7F)) }, s')
        ∧ s'.env.reads = rest)
    ∧ sampleCountBits 0 = 1
    ∧ 5530000000000 ≤ sampleCountBits 127
    ∧ sampleCountBits 127 ≤ 5550000000000 := by
  refine ⟨?_, rfl, ?_, ?_⟩
  · intro w rest hm
    unfold fetch_sample_count
    simp only [handle_lane_status,
      show (fetchSampleEngine w rest).device_error = none from rfl, truthyO_none,
      Bool.false_eq_true, if_false,
      show (fetchSampleEngine w rest).lane_errors[0]? = some "" from rfl, truthyS_empty]
    rw [if_neg (by norm_num)]
    simp only [engineM_bind_apply]
    rw [no_command_ok 0 _ 0x0 0x9C00 _ (by rfl) (by rfl) (by rfl) (by rfl) (by decide)]
    simp only [engineM_bind_apply]
    rw [write_mlcr_ok 0 0x1 0x1 0x0 0x8F _ 0x0 _ (by rfl) (by rfl) (by rfl) (by rfl)]
    simp only [engineM_bind_apply]
    rw [decode_status_ok 0 _ w rest (by rfl) (by rfl) (by rfl)]
    simp only [engineM_bind_apply, getEngine_apply, popStatusRead]
    rw [marginTypePoll_exit 0 0x1 _ _ w _ (by simp [hm])]
    simp only [engineM_bind_apply, engineM_pure_apply, statusRet, truthyO_none,
      Bool.false_eq_true, if_false, require_some, Nat.shiftRight_zero, sampleCountBits]
    exact ⟨_, rfl, rfl⟩
  · exact le_natCbrt 5530000000000 (2 ^ 127) (by norm_num)
  · exact natCbrt_le (2 ^ 127) 5550000000000 (by norm_num)

/-- Witness for C6: a poll answering status word 0x0008
(`margin_type_status = 1`, payload 0) yields `sample_count = 0` and
`sample_count_bits = 1`. -/
theorem fetch_sample_count_decode_and_bits_witness :
    ∃ s', fetch_sample_count 0 0x1 (fetchSampleEngine 0x0008 []) =
        .ok ({ error := none, sample_count := some 0, sample_count_bits := some 1 }, s')
      ∧ s'.env.reads = [] :=
  fetch_sample_count_decode_and_bits.1 0x0008 [] (by decide)


/-- On the cyclic legacy list the loop never reaches an exit: after any
number of iterations it is still running. -/
theorem capLoop_cycle (fuel : Nat) :
    ∀ dict, createDictCapabilitiesLoop cyclicCapRead fuel 0x40 dict = .running := by
  induction fuel with
  | zero => intro dict; rfl
  | succ f ih =>
    intro dict
    rw [createDictCapabilitiesLoop]
    rw [if_neg (by norm_num)]
    have hdec : decode_capability cyclicCapRead 0x40 =
        { err_msg := none, id := some 1, version := some 0, offset := some 0x40,
          offset_next := some 0x40 } := by decide
    rw [hdec]
    exact ih _

/-- On the cyclic extended list the loop never reaches an exit. -/
theorem extCapLoop_cycle (fuel : Nat) :
    ∀ dict, createDictExtendedCapabilitiesLoop cyclicExtCapRead fuel 0x100 dict = .running := by
  induction fuel with
  | zero => intro dict; rfl
  | succ f ih =>
    intro dict
    rw [createDictExtendedCapabilitiesLoop]
    rw [if_neg (by norm_num)]
    have hdec : decode_extended_capability cyclicExtCapRead 0x100 =
        { err_msg := none, id := some 0x27, version := some 0, offset := some 0x100,
          offset_next := some 0x100 } := by decide
    rw [hdec]
    exact ih _

/-- C7. The capability-list traversals have no cycle detection and no
iteration bound: on the cyclic legacy list `cyclicCapRead` (0x34 points to
0x40 whose next-offset points back to 0x40) and the cyclic extended list
`cyclicExtCapRead` (the entry at 0x100 points to itself), both traversals
are still running after every finite number of iterations — the loops
never terminate, contradicting the claim that a cyclic list cannot make
them loop forever. -/
theorem capability_traversal_diverges_on_cycle :
    (∀ fuel, create_dict_capabilities cyclicCapRead fuel = .running)
    ∧ (∀ fuel, create_dict_extended_capabilities cyclicExtCapRead fuel = .running) := by
  constructor
  · intro fuel
    unfold create_dict_capabilities
    rw [show cyclicCapRead 0x34 = some 0x40 from rfl]
    exact capLoop_cycle fuel []
  · intro fuel
    exact extCapLoop_cycle fuel []


/-- C8. StepMarginTimingOffsetRightLeftOfDefault rejects TIMING_RIGHT /
TIMING_LEFT when the receiver lacks independent left/right timing support,
and rejects TIMING_NONE when it has that support; the voltage stepper does
the same against ind_up_down_voltage for VOLTAGE_UP / VOLTAGE_DOWN /
VOLTAGE_NONE. In every rejected case the lane is marked with the error and
the engine performs no register I/O: the returned state differs from the
input only in lane_errors. -/
theorem step_margin_direction_legality_no_io :
    ∀ (s : Engine) (lane rn steps : Nat),
      truthyO s.device_error = false → s.lane_errors[lane]? = some "" →
      0x1 ≤ rn → rn < 0x7 →
      ((s.device_info.ind_left_right_timing = 0 →
         step_margin_timing_offset_right_left_of_default lane rn MarginType.TIMING_RIGHT steps s =
           .ok ({ error := some timingNoLRMsg },
                { s with lane_errors := s.lane_errors.set lane timingNoLRMsg })
         ∧ step_margin_timing_offset_right_left_of_default lane rn MarginType.TIMING_LEFT steps s =
           .ok ({ error := some timingNoLRMsg },
                { s with lane_errors := s.lane_errors.set lane timingNoLRMsg }))
       ∧ (s.device_info.ind_left_right_timing ≠ 0 →
         step_margin_timing_offset_right_left_of_default lane rn MarginType.TIMING_NONE steps s =
           .ok ({ error := some timingBadTypeNoneMsg },
                { s with lane_errors := s.lane_errors.set lane timingBadTypeNoneMsg }))
       ∧ (s.device_info.ind_up_down_voltage = 0 →
         step_margin_voltage_offset_up_down_of_default lane rn MarginType.VOLTAGE_UP steps s =
           .ok ({ error := some voltageNoUDMsg },
                { s with lane_errors := s.lane_errors.set lane voltageNoUDMsg })
         ∧ step_margin_voltage_offset_up_down_of_default lane rn MarginType.VOLTAGE_DOWN steps s =
           .ok ({ error := some voltageNoUDMsg },
                { s with lane_errors := s.lane_errors.set lane voltageNoUDMsg }))
       ∧ (s.device_info.ind_up_down_voltage ≠ 0 →
         step_margin_voltage_offset_up_down_of_default lane rn MarginType.VOLTAGE_NONE steps s =
           .ok ({ error := some voltageBadTypeNoneMsg },
                { s with lane_errors := s.lane_errors.set lane voltageBadTypeNoneMsg }))) := by
  intro s lane rn steps h1 h2 hlo hhi
  refine ⟨?_, ?_, ?_, ?_⟩
  · intro hflag
    constructor
    all_goals
      unfold step_margin_timing_offset_right_left_of_default
      simp only [handle_lane_status, h1, h2, truthyS_empty, Bool.false_eq_true, if_false]
      rw [if_neg (by omega)]
      simp only [engineM_bind_apply, getEngine_apply, hflag, if_true, engineM_pure_apply]
      simp [truthyS, timingNoLRMsg]
  · intro hflag
    unfold step_margin_timing_offset_right_left_of_default
    simp only [handle_lane_status, h1, h2, truthyS_empty, Bool.false_eq_true, if_false]
    rw [if_neg (by omega)]
    simp only [engineM_bind_apply, getEngine_apply]
    rw [if_neg hflag]
    simp [truthyS, MarginType.name, timingBadTypeNoneMsg]
  · intro hflag
    constructor
    all_goals
      unfold step_margin_voltage_offset_up_down_of_default
      simp only [handle_lane_status, h1, h2, truthyS_empty, Bool.false_eq_true, if_false]
      rw [if_neg (by omega)]
      simp only [engineM_bind_apply, getEngine_apply, hflag, if_true, engineM_pure_apply]
      simp [truthyS, voltageNoUDMsg]
  · intro hflag
    unfold step_margin_voltage_offset_up_down_of_default
    simp only [handle_lane_status, h1, h2, truthyS_empty, Bool.false_eq_true, if_false]
    rw [if_neg (by omega)]
    simp only [engineM_bind_apply, getEngine_apply]
    rw [if_neg hflag]
    simp [truthyS, MarginType.name, voltageBadTypeNoneMsg]

theorem step_margin_direction_legality_no_io_witness :
    step_margin_timing_offset_right_left_of_default 0 1 MarginType.TIMING_RIGHT 6 engC1 =
      .ok ({ error := some timingNoLRMsg },
           { engC1 with lane_errors := engC1.lane_errors.set 0 timingNoLRMsg })
    ∧ step_margin_voltage_offset_up_down_of_default 0 1 MarginType.VOLTAGE_UP 6 engC1 =
      .ok ({ error := some voltageNoUDMsg },
           { engC1 with lane_errors := engC1.lane_errors.set 0 voltageNoUDMsg }) := by
  have h := step_margin_direction_legality_no_io engC1 0 1 6 (by rfl) (by rfl)
    (by decide) (by decide)
  exact ⟨(h.1 (by rfl)).1, (h.2.2.1 (by rfl)).1⟩

theorem stepTimingIter_eval (lane : Nat) (s : Engine) (w : Nat) (rest : List (Option Nat))
    (h1 : s.device_error = none) (h2 : s.lane_errors[lane]? = some "")
    (hr : s.env.reads = some w :: rest) :
    stepMarginTimingIter lane s =
      .ok (stepIterResult 0x3 w timingNakMsg, popStatusRead lane s rest) := by
  simp only [stepMarginTimingIter, engineM_bind_apply]
  rw [decode_status_ok lane s w rest h1 h2 hr]
  simp only [statusRet, require_some, engineM_bind_apply, engineM_pure_apply,
    stepIterResult, stepSuccessRet, execOf, ecOf, Nat.shiftRight_zero, timingNakMsg]
  split
  · rfl
  · split
    · rfl
    · rfl

theorem stepVoltageIter_eval (lane : Nat) (s : Engine) (w : Nat) (rest : List (Option Nat))
    (h1 : s.device_error = none) (h2 : s.lane_errors[lane]? = some "")
    (hr : s.env.reads = some w :: rest) :
    stepMarginVoltageIter lane s =
      .ok (stepIterResult 0x4 w voltageNakMsg, popStatusRead lane s rest) := by
  simp only [stepMarginVoltageIter, engineM_bind_apply]
  rw [decode_status_ok lane s w rest h1 h2 hr]
  simp only [statusRet, require_some, engineM_bind_apply, engineM_pure_apply,
    stepIterResult, stepSuccessRet, execOf, ecOf, Nat.shiftRight_zero, voltageNakMsg]
  split
  · rfl
  · split
    · rfl
    · rfl

theorem stepTimingPoll_exit (lane fuel : Nat) (s : Engine) (w : Nat)
    (rest : List (Option Nat)) (r : Ret)
    (h1 : s.device_error = none) (h2 : s.lane_errors[lane]? = some "")
    (hr : s.env.reads = some w :: rest)
    (hres : stepIterResult 0x3 w timingNakMsg = some r) :
    decodeStepMarginTimingPoll lane fuel s = .ok (r, popStatusRead lane s rest) := by
  cases fuel with
  | zero =>
    simp only [decodeStepMarginTimingPoll, engineM_bind_apply]
    rw [stepTimingIter_eval lane s w rest h1 h2 hr, hres]
    rfl
  | succ fuel =>
    simp only [decodeStepMarginTimingPoll, engineM_bind_apply]
    rw [stepTimingIter_eval lane s w rest h1 h2 hr, hres]
    rfl

theorem stepVoltagePoll_exit (lane fuel : Nat) (s : Engine) (w : Nat)
    (rest : List (Option Nat)) (r : Ret)
    (h1 : s.device_error = none) (h2 : s.lane_errors[lane]? = some "")
    (hr : s.env.reads = some w :: rest)
    (hres : stepIterResult 0x4 w voltageNakMsg = some r) :
    decodeStepMarginVoltagePoll lane fuel s = .ok (r, popStatusRead lane s rest) := by
  cases fuel with
  | zero =>
    simp only [decodeStepMarginVoltagePoll, engineM_bind_apply]
    rw [stepVoltageIter_eval lane s w rest h1 h2 hr, hres]
    rfl
  | succ fuel =>
    simp only [decodeStepMarginVoltagePoll, engineM_bind_apply]
    rw [stepVoltageIter_eval lane s w rest h1 h2 hr, hres]
    rfl

theorem popStatusRead_trace_len (lane : Nat) (s : Engine) (rest : List (Option Nat)) :
    (popStatusRead lane s rest).trace.length = s.trace.length + 1 := by
  simp [popStatusRead]

theorem stepTimingPoll_timeout (lane : Nat) :
    ∀ (fuel : Nat) (ws : List Nat) (s : Engine) (rest : List (Option Nat)),
      s.device_error = none → s.lane_errors[lane]? = some "" →
      s.env.reads = ws.map some ++ rest →
      ws.length = fuel + 1 →
      (∀ w ∈ ws, stepIterResult 0x3 w timingNakMsg = none) →
      ∃ s', decodeStepMarginTimingPoll lane fuel s =
              .ok ({ error := some timingTimeoutMsg }, s')
        ∧ s'.env.reads = rest ∧ s'.lane_errors = s.lane_errors
        ∧ s'.device_error = s.device_error
        ∧ s'.trace.length = s.trace.length + (fuel + 1) := by
  intro fuel
  induction fuel with
  | zero =>
    intro ws s rest h1 h2 hr hlen hall
    match ws, hlen with
    | [w], _ =>
      simp only [List.map, List.cons_append, List.nil_append] at hr
      simp only [decodeStepMarginTimingPoll, engineM_bind_apply]
      rw [stepTimingIter_eval lane s w rest h1 h2 hr, hall w (by simp)]
      exact ⟨popStatusRead lane s rest, rfl, rfl, rfl, rfl, by
        simp [popStatusRead]⟩
  | succ fuel ih =>
    intro ws s rest h1 h2 hr hlen hall
    match ws, hlen with
    | w :: ws, hlen =>
      simp only [List.map, List.cons_append] at hr
      simp only [decodeStepMarginTimingPoll, engineM_bind_apply]
      rw [stepTimingIter_eval lane s w (List.map some ws ++ rest) h1 h2 hr,
        hall w (by simp)]
      have h2p : (popStatusRead lane s (List.map some ws ++ rest)).lane_errors[lane]? =
          some "" := h2
      obtain ⟨s', hs', hrest, hle, hde, htr⟩ :=
        ih ws (popStatusRead lane s (List.map some ws ++ rest)) rest h1 h2p rfl
          (by simpa using hlen) (fun v hv => hall v (by simp [hv]))
      refine ⟨s', hs', hrest, hle, hde, ?_⟩
      rw [htr, popStatusRead_trace_len]
      omega

theorem stepVoltagePoll_timeout (lane : Nat) :
    ∀ (fuel : Nat) (ws : List Nat) (s : Engine) (rest : List (Option Nat)),
      s.device_error = none → s.lane_errors[lane]? = some "" →
      s.env.reads = ws.map some ++ rest →
      ws.length = fuel + 1 →
      (∀ w ∈ ws, stepIterResult 0x4 w voltageNakMsg = none) →
      ∃ s', decodeStepMarginVoltagePoll lane fuel s =
              .ok ({ error := some voltageTimeoutMsg }, s')
        ∧ s'.env.reads = rest ∧ s'.lane_errors = s.lane_errors
        ∧ s'.device_error = s.device_error
        ∧ s'.trace.length = s.trace.length + (fuel + 1) := by
  intro fuel
  induction fuel with
  | zero =>
    intro ws s rest h1 h2 hr hlen hall
    match ws, hlen with
    | [w], _ =>
      simp only [List.map, List.cons_append, List.nil_append] at hr
      simp only [decodeStepMarginVoltagePoll, engineM_bind_apply]
      rw [stepVoltageIter_eval lane s w rest h1 h2 hr, hall w (by simp)]
      exact ⟨popStatusRead lane s rest, rfl, rfl, rfl, rfl, by
        simp [popStatusRead]⟩
  | succ fuel ih =>
    intro ws s rest h1 h2 hr hlen hall
    match ws, hlen with
    | w :: ws, hlen =>
      simp only [List.map, List.cons_append] at hr
      simp only [decodeStepMarginVoltagePoll, engineM_bind_apply]
      rw [stepVoltageIter_eval lane s w (List.map some ws ++ rest) h1 h2 hr,
        hall w (by simp)]
      have h2p : (popStatusRead lane s (List.map some ws ++ rest)).lane_errors[lane]? =
          some "" := h2
      obtain ⟨s', hs', hrest, hle, hde, htr⟩ :=
        ih ws (popStatusRead lane s (List.map some ws ++ rest)) rest h1 h2p rfl
          (by simpa using hlen) (fun v hv => hall v (by simp [hv]))
      refine ⟨s', hs', hrest, hle, hde, ?_⟩
      rw [htr, popStatusRead_trace_len]
      omega

/-- C4. In the step-margin decode loops (timing, margin type 3, and
voltage, margin type 4) run on a clean lane: a polled status word whose
margin_type_status matches the issued type with execution status 3 (NAK)
makes the loop fail at once with the unsupported-operation error, after a
single status read, for every remaining poll budget; execution status 2
ends the loop with the success dict after that single read; and a stream of
status words that never matches either exit keeps the loop polling — one
status read per iteration — until the budget is spent, after which it fails
with the timed-out error. -/
theorem step_margin_decode_loop_nak_success_timeout :
    (∀ (lane fuel : Nat) (s : Engine) (w : Nat) (rest : List (Option Nat)),
      s.device_error = none → s.lane_errors[lane]? = some "" →
      s.env.reads = some w :: rest →
      ((mtsOf w = 0x3 → execOf w = 0x3 →
          decodeStepMarginTimingPoll lane fuel s =
            .ok ({ error := some timingNakMsg }, popStatusRead lane s rest))
       ∧ (mtsOf w = 0x4 → execOf w = 0x3 →
          decodeStepMarginVoltagePoll lane fuel s =
            .ok ({ error := some voltageNakMsg }, popStatusRead lane s rest))
       ∧ (mtsOf w = 0x3 → execOf w = 0x2 →
          decodeStepMarginTimingPoll lane fuel s =
            .ok (stepSuccessRet w, popStatusRead lane s rest))
       ∧ (mtsOf w = 0x4 → execOf w = 0x2 →
          decodeStepMarginVoltagePoll lane fuel s =
            .ok (stepSuccessRet w, popStatusRead lane s rest))))
    ∧ (∀ (lane fuel : Nat) (ws : List Nat) (s : Engine) (rest : List (Option Nat)),
      s.device_error = none → s.lane_errors[lane]? = some "" →
      s.env.reads = ws.map some ++ rest → ws.length = fuel + 1 →
      (∀ w ∈ ws, ¬(mtsOf w = 0x3 ∧ (execOf w = 0x2 ∨ execOf w = 0x3))) →
      ∃ s', decodeStepMarginTimingPoll lane fuel s =
              .ok ({ error := some timingTimeoutMsg }, s')
        ∧ s'.env.reads = rest ∧ s'.lane_errors = s.lane_errors
        ∧ s'.device_error = s.device_error
        ∧ s'.trace.length = s.trace.length + (fuel + 1))
    ∧ (∀ (lane fuel : Nat) (ws : List Nat) (s : Engine) (rest : List (Option Nat)),
      s.device_error = none → s.lane_errors[lane]? = some "" →
      s.env.reads = ws.map some ++ rest → ws.length = fuel + 1 →
      (∀ w ∈ ws, ¬(mtsOf w = 0x4 ∧ (execOf w = 0x2 ∨ execOf w = 0x3))) →
      ∃ s', decodeStepMarginVoltagePoll lane fuel s =
              .ok ({ error := some voltageTimeoutMsg }, s')
        ∧ s'.env.reads = rest ∧ s'.lane_errors = s.lane_errors
        ∧ s'.device_error = s.device_error
        ∧ s'.trace.length = s.trace.length + (fuel + 1)) := by
  refine ⟨?_, ?_, ?_⟩
  · intro lane fuel s w rest h1 h2 hr
    refine ⟨?_, ?_, ?_, ?_⟩
    · intro hmt hex
      exact stepTimingPoll_exit lane fuel s w rest _ h1 h2 hr
        (by simp [stepIterResult, hmt, hex])
    · intro hmt hex
      exact stepVoltagePoll_exit lane fuel s w rest _ h1 h2 hr
        (by simp [stepIterResult, hmt, hex])
    · intro hmt hex
      exact stepTimingPoll_exit lane fuel s w rest _ h1 h2 hr
        (by simp [stepIterResult, hmt, hex])
    · intro hmt hex
      exact stepVoltagePoll_exit lane fuel s w rest _ h1 h2 hr
        (by simp [stepIterResult, hmt, hex])
  · intro lane fuel ws s rest h1 h2 hr hlen hall
    refine stepTimingPoll_timeout lane fuel ws s rest h1 h2 hr hlen ?_
    intro w hw
    have h := hall w hw
    simp only [stepIterResult]
    by_cases hc1 : (mtsOf w == 0x3 && execOf w == 0x2) = true
    · simp only [Bool.and_eq_true, beq_iff_eq] at hc1
      exact absurd ⟨hc1.1, Or.inl hc1.2⟩ h
    · rw [if_neg hc1]
      by_cases hc2 : (mtsOf w == 0x3 && execOf w == 0x3) = true
      · simp only [Bool.and_eq_true, beq_iff_eq] at hc2
        exact absurd ⟨hc2.1, Or.inr hc2.2⟩ h
      · rw [if_neg hc2]
  · intro lane fuel ws s rest h1 h2 hr hlen hall
    refine stepVoltagePoll_timeout lane fuel ws s rest h1 h2 hr hlen ?_
    intro w hw
    have h := hall w hw
    simp only [stepIterResult]
    by_cases hc1 : (mtsOf w == 0x4 && execOf w == 0x2) = true
    · simp only [Bool.and_eq_true, beq_iff_eq] at hc1
      exact absurd ⟨hc1.1, Or.inl hc1.2⟩ h
    · rw [if_neg hc1]
      by_cases hc2 : (mtsOf w == 0x4 && execOf w == 0x3) = true
      · simp only [Bool.and_eq_true, beq_iff_eq] at hc2
        exact absurd ⟨hc2.1, Or.inr hc2.2⟩ h
      · rw [if_neg hc2]

theorem step_margin_decode_loop_nak_success_timeout_witness :
    (decodeStepMarginTimingPoll 0 9 engC4nak =
      .ok ({ error := some timingNakMsg }, popStatusRead 0 engC4nak []))
    ∧ (∃ s', decodeStepMarginTimingPoll 0 1 engC4poll =
        .ok ({ error := some timingTimeoutMsg }, s') ∧ s'.env.reads = []) := by
  have h := step_margin_decode_loop_nak_success_timeout
  refine ⟨(h.1 0 9 engC4nak 0xC018 [] rfl rfl rfl).1 (by decide) (by decide), ?_⟩
  obtain ⟨s', hs', hrest, _⟩ :=
    h.2.1 0 1 [0, 0] engC4poll [] rfl rfl rfl rfl (by decide)
  exact ⟨s', hs', hrest⟩

theorem noCommand_calls_mem :
    ∀ (devs : List DevMeta) (i k l : Nat) (d : DevMeta),
      devs[i]? = some d → d.primed = true → l < d.width →
      OpCall.noCommand (k + i) l ∈ noCommandOnDeviceListCalls k devs := by
  intro devs
  induction devs with
  | nil => intro i k l d hget _ _; simp at hget
  | cons d0 ds ih =>
    intro i k l d hget hp hl
    cases i with
    | zero =>
      simp only [List.getElem?_cons_zero, Option.some.injEq] at hget
      subst hget
      simp only [noCommandOnDeviceListCalls]
      rw [if_pos hp]
      simp only [Nat.add_zero]
      exact List.mem_append_left _ (List.mem_map.mpr ⟨l, List.mem_range.mpr hl, rfl⟩)
    | succ i =>
      have h := ih i (k + 1) l d (by simpa using hget) hp hl
      simp only [noCommandOnDeviceListCalls]
      refine List.mem_append_right _ ?_
      rw [show k + (i + 1) = (k + 1) + i by omega]
      exact h

theorem clearErrorLog_calls_mem :
    ∀ (devs : List DevMeta) (i k rn l : Nat) (d : DevMeta),
      devs[i]? = some d → d.primed = true → l < d.width →
      OpCall.clearErrorLog (k + i) l rn ∈ clearErrorLogOnDeviceListCalls k rn devs := by
  intro devs
  induction devs with
  | nil => intro i k rn l d hget _ _; simp at hget
  | cons d0 ds ih =>
    intro i k rn l d hget hp hl
    cases i with
    | zero =>
      simp only [List.getElem?_cons_zero, Option.some.injEq] at hget
      subst hget
      simp only [clearErrorLogOnDeviceListCalls]
      rw [if_pos hp]
      simp only [Nat.add_zero]
      exact List.mem_append_left _ (List.mem_map.mpr ⟨l, List.mem_range.mpr hl, rfl⟩)
    | succ i =>
      have h := ih i (k + 1) rn l d (by simpa using hget) hp hl
      simp only [clearErrorLogOnDeviceListCalls]
      refine List.mem_append_right _ ?_
      rw [show k + (i + 1) = (k + 1) + i by omega]
      exact h

theorem normalSettings_calls_mem :
    ∀ (devs : List DevMeta) (i k rn l : Nat) (d : DevMeta),
      devs[i]? = some d → d.primed = true → l < d.width →
      OpCall.gotoNormalSettings (k + i) l rn ∈ normalSettingsOnDeviceListCalls k rn devs := by
  intro devs
  induction devs with
  | nil => intro i k rn l d hget _ _; simp at hget
  | cons d0 ds ih =>
    intro i k rn l d hget hp hl
    cases i with
    | zero =>
      simp only [List.getElem?_cons_zero, Option.some.injEq] at hget
      subst hget
      simp only [normalSettingsOnDeviceListCalls]
      rw [if_pos hp]
      simp only [Nat.add_zero]
      exact List.mem_append_left _ (List.mem_map.mpr ⟨l, List.mem_range.mpr hl, rfl⟩)
    | succ i =>
      have h := ih i (k + 1) rn l d (by simpa using hget) hp hl
      simp only [normalSettingsOnDeviceListCalls]
      refine List.mem_append_right _ ?_
      rw [show k + (i + 1) = (k + 1) + i by omega]
      exact h

theorem setupLaneMargin_calls_mem :
    ∀ (devs : List DevMeta) (i k rn limit l : Nat) (d : DevMeta),
      devs[i]? = some d → d.primed = true → l < d.width →
      OpCall.setErrorCountLimit (k + i) l rn limit ∈
        setupLaneMarginOnDeviceListCalls k rn limit devs := by
  intro devs
  induction devs with
  | nil => intro i k rn limit l d hget _ _; simp at hget
  | cons d0 ds ih =>
    intro i k rn limit l d hget hp hl
    cases i with
    | zero =>
      simp only [List.getElem?_cons_zero, Option.some.injEq] at hget
      subst hget
      simp only [setupLaneMarginOnDeviceListCalls]
      rw [if_pos hp]
      simp only [Nat.add_zero]
      exact List.mem_append_left _ (List.mem_map.mpr ⟨l, List.mem_range.mpr hl, rfl⟩)
    | succ i =>
      have h := ih i (k + 1) rn limit l d (by simpa using hget) hp hl
      simp only [setupLaneMarginOnDeviceListCalls]
      refine List.mem_append_right _ ?_
      rw [show k + (i + 1) = (k + 1) + i by omega]
      exact h

theorem stepMargin_calls_mem :
    ∀ (devs : List DevMeta) (i k rn l : Nat) (d : DevMeta),
      devs[i]? = some d → l < d.width →
      OpCall.stepMargin (k + i) l rn ∈ collectLaneMarginOnDeviceListCalls k rn devs := by
  intro devs
  induction devs with
  | nil => intro i k rn l d hget _; simp at hget
  | cons d0 ds ih =>
    intro i k rn l d hget hl
    cases i with
    | zero =>
      simp only [List.getElem?_cons_zero, Option.some.injEq] at hget
      subst hget
      simp only [collectLaneMarginOnDeviceListCalls, Nat.add_zero]
      refine List.mem_append_left _ ?_
      exact List.mem_flatten.mpr
        ⟨[OpCall.stepMargin k l rn, OpCall.fetchSampleCount k l rn],
         List.mem_map.mpr ⟨l, List.mem_range.mpr hl, rfl⟩, by simp⟩
    | succ i =>
      have h := ih i (k + 1) rn l d (by simpa using hget) hl
      simp only [collectLaneMarginOnDeviceListCalls]
      refine List.mem_append_right _ ?_
      rw [show k + (i + 1) = (k + 1) + i by omega]
      exact h

/-- C9 (counterexample). A freshly constructed device is never primed, and
the pre-priming NoCommand pass is guarded on `device.primed`: on the first
run with one fresh 2-lane device it issues no call at all, so the very
first orchestrated call is the priming capability fetch, not a NoCommand.
This refutes the claim that every constructed device, primed or not,
receives a NoCommand on each lane before the priming pass. -/
theorem pre_priming_noCommand_pass_skips_unprimed :
    (pcieDeviceLaneMarginingInit "0000:01:00.0" linkOkC9 capOkC9
        { reads := [], writeOks := [], budget := 0 }).primed = false
    ∧ noCommandOnDeviceListCalls 0 [⟨false, 2⟩] = []
    ∧ (collectLmtOnBDFsCalls [⟨false, 2⟩] 1 63 [true]).take 1 =
        [OpCall.fetchMarginControlCapabilities 0 0 1] := by decide

/-- C9 (amended). After the priming pass, every device that is then primed
has, for each of its lanes, the setup sweep `NoCommand`, `ClearErrorLog`,
`GotoNormalSettings`, `SetErrorCountLimit` issued in that order, followed
by the dwell wait, followed by the measurement step-margin call: the six
calls form a subsequence of the full `collectLmtOnBDFs` call list. (The
pre-priming NoCommand pass, by contrast, covers only devices that were
already primed — nothing on a first run.) -/
theorem setup_sweep_order_for_primed_devices :
    ∀ (devs : List DevMeta) (outs : List Bool) (rn limit i l : Nat) (d : DevMeta),
      (applyPriming devs outs)[i]? = some d → d.primed = true → l < d.width →
      List.Sublist
        [OpCall.noCommand i l, OpCall.clearErrorLog i l rn,
         OpCall.gotoNormalSettings i l rn, OpCall.setErrorCountLimit i l rn limit,
         OpCall.dwell, OpCall.stepMargin i l rn]
        (collectLmtOnBDFsCalls devs rn limit outs) := by
  intro devs outs rn limit i l d hget hp hl
  have h1 := noCommand_calls_mem (applyPriming devs outs) i 0 l d hget hp hl
  have h2 := clearErrorLog_calls_mem (applyPriming devs outs) i 0 rn l d hget hp hl
  have h3 := normalSettings_calls_mem (applyPriming devs outs) i 0 rn l d hget hp hl
  have h4 := setupLaneMargin_calls_mem (applyPriming devs outs) i 0 rn limit l d hget hp hl
  have h5 := stepMargin_calls_mem (applyPriming devs outs) i 0 rn l d hget hl
  rw [Nat.zero_add] at h1 h2 h3 h4 h5
  show List.Sublist
    ((((((([] ++ []) ++ [OpCall.noCommand i l]) ++ [OpCall.clearErrorLog i l rn]) ++
      [OpCall.gotoNormalSettings i l rn]) ++ [OpCall.setErrorCountLimit i l rn limit]) ++
        [OpCall.dwell]) ++ [OpCall.stepMargin i l rn])
    (collectLmtOnBDFsCalls devs rn limit outs)
  simp only [collectLmtOnBDFsCalls]
  exact List.Sublist.append
    (List.Sublist.append
      (List.Sublist.append
        (List.Sublist.append
          (List.Sublist.append
            (List.Sublist.append
              (List.Sublist.append (List.nil_sublist _) (List.nil_sublist _))
              (List.singleton_sublist.mpr h1))
            (List.singleton_sublist.mpr h2))
          (List.singleton_sublist.mpr h3))
        (List.singleton_sublist.mpr h4))
      (List.Sublist.refl [OpCall.dwell]))
    (List.singleton_sublist.mpr h5)

theorem setup_sweep_order_for_primed_devices_witness :
    List.Sublist
      [OpCall.noCommand 0 1, OpCall.clearErrorLog 0 1 1,
       OpCall.gotoNormalSettings 0 1 1, OpCall.setErrorCountLimit 0 1 1 63,
       OpCall.dwell, OpCall.stepMargin 0 1 1]
      (collectLmtOnBDFsCalls [⟨false, 2⟩] 1 63 [true]) :=
  setup_sweep_order_for_primed_devices [⟨false, 2⟩] [true] 1 63 0 1 ⟨true, 2⟩
    (by decide) (by decide) (by decide)

end PciLmt
